import Mathlib

/-! Safety-controller demonstration programs: a verification development.

Shallow embedding of the control loops under `src/opam/demo/problems/` and
proofs of their saturation, rate-limit, mode-priority, latch and
history-window properties.

Conventions of the embedding

* C `int` values are Lean `Int`.  Where an expression of the source can leave
  the 32-bit range for the inputs considered, the result is reduced with
  `wrap32` (two's-complement wrap-around); `/` on `int` is `Int.tdiv`
  (truncation toward zero).
* `volatile` sensor globals are the fields of a per-tick input record; `static`
  and global controller variables are the fields of a state record that each
  step function receives and returns.
* `float` values that are only stored, moved and compared are exact
  rationals.  Where a result depends on `float` arithmetic followed by a cast
  to `int`, the cast result is an input of the step function, so a theorem
  quantifying over the inputs covers every value the hardware can produce.
* Arrays are lists; `a[i] = v` is `List.set`, reading `a[i]` is `List.getD`.
* Each `printf` diagnostic that a property talks about is a Boolean field of
  the value returned by the embedded function.
-/

/-- Two's-complement reduction of an integer to the range of a 32-bit `int`. -/
def wrap32 (x : Int) : Int := (x + 2147483648) % 4294967296 - 2147483648

/-! ## Drone motor controller (`problems_30/prob13.c`) -/

namespace DroneMotor

def MAX_THROTTLE : Int := 1000
def MIN_THROTTLE : Int := 0
def BATTERY_WARNING_VOLTAGE : Int := 3500
def BATTERY_CRITICAL_VOLTAGE : Int := 3300
def BATTERY_CUTOFF_VOLTAGE : Int := 3200
def RTL_THROTTLE_COMMAND : Int := 400
def MAX_THROTTLE_STEP : Int := 50
def FLIGHT_MODE_ACRO : Int := 0
def FLIGHT_MODE_ANGLE : Int := 1

/-- The simulated hardware inputs read by `step`. -/
structure Sensors where
  pilot_throttle_input : Int
  battery_voltage_mv : Int
  flight_mode : Int
  armed : Bool
  deriving DecidableEq, Repr

/-- The internal controller state (`static int rtl_hold_counter`). -/
structure State where
  rtl_hold_counter : Int
  deriving DecidableEq, Repr

/-- Limits how fast throttle can change between control steps. -/
def apply_rate_limit (last desired : Int) : Int :=
  if desired > wrap32 (last + MAX_THROTTLE_STEP) then wrap32 (last + MAX_THROTTLE_STEP)
  else if desired < wrap32 (last - MAX_THROTTLE_STEP) then wrap32 (last - MAX_THROTTLE_STEP)
  else desired

/-- Stages 1 to 5 of `step`: the desired throttle before rate limiting, and the
updated hold counter. -/
def desired_throttle (st : State) (s : Sensors) (last_throttle_cmd : Int) : Int × State :=
  if s.battery_voltage_mv ≤ BATTERY_CUTOFF_VOLTAGE then
    (0, st)
  else if s.battery_voltage_mv < BATTERY_CRITICAL_VOLTAGE then
    (RTL_THROTTLE_COMMAND, { rtl_hold_counter := 10 })
  else if st.rtl_hold_counter > 0 then
    (RTL_THROTTLE_COMMAND, { rtl_hold_counter := st.rtl_hold_counter - 1 })
  else if s.armed then
    let d :=
      if s.flight_mode = FLIGHT_MODE_ACRO then s.pilot_throttle_input
      else Int.tdiv (wrap32 (last_throttle_cmd + s.pilot_throttle_input)) 2
    let d := if s.battery_voltage_mv < BATTERY_WARNING_VOLTAGE
      then Int.tdiv (wrap32 (d * 70)) 100 else d
    (d, st)
  else
    (0, st)

/-- Main drone motor control logic: returns the throttle command and the new
controller state. -/
def step (st : State) (s : Sensors) (last_throttle_cmd : Int) : Int × State :=
  let r := desired_throttle st s last_throttle_cmd
  -- 6. rate limiting
  let d := apply_rate_limit last_throttle_cmd r.1
  -- 7. final safety saturation
  let d := if d > MAX_THROTTLE then MAX_THROTTLE else d
  let d := if d < MIN_THROTTLE then MIN_THROTTLE else d
  -- 8. compound safety invariant
  let d :=
    if (s.battery_voltage_mv < BATTERY_CRITICAL_VOLTAGE ∨ s.armed = false) ∧ d > last_throttle_cmd
    then last_throttle_cmd else d
  (d, r.2)

/-- The loop of `main`: feeds each returned throttle back as `last_throttle_cmd`
and collects the returned values, oldest first. -/
def run (st : State) (motor_throttle : Int) : List Sensors → List Int
  | [] => []
  | s :: rest =>
    let r := step st s motor_throttle
    r.1 :: run r.2 r.1 rest

/-- The controller state at the start of `main`. -/
def init_state : State := { rtl_hold_counter := 0 }

/-- Clamp of a value to `[lo, hi]`, as the specification of the rate limiter
uses it. -/
def clamp (v lo hi : Int) : Int := if v < lo then lo else if v > hi then hi else v

/-- The rate limiter in the words of the specification: the change
`desired - previous` is clamped to `[-max_step, +max_step]`. -/
def spec_rate_limit (last desired : Int) : Int :=
  last + clamp (desired - last) (-MAX_THROTTLE_STEP) MAX_THROTTLE_STEP

end DroneMotor

/-- The value of the C cast `(int)x` for a real `x`: truncation toward zero,
reduced to the 32-bit range. -/
def float_to_int (x : ℚ) : Int := wrap32 (if 0 ≤ x then Int.floor x else Int.ceil x)

/-! ## HVAC damper controller (`problems_30/prob18.c`) -/

namespace HvacDamper

def DAMPER_MAX_OPEN : Int := 100
def DAMPER_MIN_OPEN : Int := 0
def DAMPER_FIRE_SAFE_POSITION : Int := 0
def MAX_STEP : Int := 15
def TEMP_DEADBAND : ℚ := 1
def FIRE_PREALARM_COUNT : Int := 3

/-- The simulated hardware inputs read by `step`. -/
structure Sensors where
  current_temp_f : ℚ
  target_temp_f : ℚ
  fire_alarm_signal : Bool
  system_on : Bool
  deriving DecidableEq, Repr

/-- The internal controller state. -/
structure State where
  fire_alarm_counter : Int
  fire_alarm_confirmed : Bool
  deriving DecidableEq, Repr

/-- Clamps a value to a given range. -/
def clamp (val min max : Int) : Int :=
  if val < min then min else if val > max then max else val

/-- The fire alarm confirmation logic at the head of `step`. -/
def confirm_fire_alarm (st : State) (s : Sensors) : State :=
  if s.fire_alarm_signal then
    let c := wrap32 (st.fire_alarm_counter + 1)
    { fire_alarm_counter := c,
      fire_alarm_confirmed := if c ≥ FIRE_PREALARM_COUNT then true else st.fire_alarm_confirmed }
  else
    { fire_alarm_counter := 0, fire_alarm_confirmed := false }

/-- Stages 1 to 3 of `step`: the desired damper position before rate limiting. -/
def desired_position (st1 : State) (s : Sensors) (last_damper_position : Int) : Int :=
  if st1.fire_alarm_confirmed then DAMPER_FIRE_SAFE_POSITION
  else if !s.system_on then DAMPER_MIN_OPEN
  else
    let temp_error := s.current_temp_f - s.target_temp_f
    if |temp_error| ≤ TEMP_DEADBAND then last_damper_position
    else if temp_error > 0 then
      clamp (wrap32 (last_damper_position + float_to_int (temp_error * 5)))
        DAMPER_MIN_OPEN DAMPER_MAX_OPEN
    else
      clamp (wrap32 (last_damper_position - float_to_int (|temp_error| * 5)))
        DAMPER_MIN_OPEN DAMPER_MAX_OPEN

/-- Main HVAC damper control logic: returns the new damper position and the new
controller state. -/
def step (st : State) (s : Sensors) (last_damper_position : Int) : Int × State :=
  let st1 := confirm_fire_alarm st s
  let desired := desired_position st1 s last_damper_position
  -- 4. rate limiting
  let delta := wrap32 (desired - last_damper_position)
  let delta := if delta > MAX_STEP then MAX_STEP else delta
  let delta := if delta < -MAX_STEP then -MAX_STEP else delta
  let new_position := wrap32 (last_damper_position + delta)
  -- 5. final hard saturation
  (clamp new_position DAMPER_MIN_OPEN DAMPER_MAX_OPEN, st1)

/-- The loop of `main`: each returned position is the next call's
`last_damper_position`; returns the position and state after the last call. -/
def run (st : State) (damper_position : Int) : List Sensors → Int × State
  | [] => (damper_position, st)
  | s :: rest => run (step st s damper_position).2 (step st s damper_position).1 rest

/-- The controller state at program start. -/
def init_state : State := { fire_alarm_counter := 0, fire_alarm_confirmed := false }

end HvacDamper

/-! ## Data center cooling controller (`problems_30/prob12.c`) -/

namespace DataCenterCooling

def COMPRESSOR_ON : Int := 1
def COMPRESSOR_OFF : Int := 0
def TEMP_HIGH_THRESHOLD_C : ℚ := 40
def TEMP_LOW_THRESHOLD_C : ℚ := 35
def COOLDOWN_CYCLES : Int := 5

inductive cooling_mode_t where
  | NORMAL_OPERATION
  | LEAK_SHUTDOWN
  | COOLDOWN_RECOVERY
  deriving DecidableEq, Repr

open cooling_mode_t

/-- The simulated hardware inputs. -/
structure Sensors where
  rack_inlet_temp_c : ℚ
  water_leak_detected : Bool
  server_cpu_load_percent : Int
  unit_enabled_by_master : Bool
  deriving DecidableEq, Repr

/-- The control state: the mode behind the `mode` pointer and the global
`cooldown_timer`. -/
structure State where
  mode : cooling_mode_t
  cooldown_timer : Int
  deriving DecidableEq, Repr

/-- The mode transitions at the head of `step_control_logic`. -/
def mode_transition (st : State) (s : Sensors) : State :=
  if s.water_leak_detected then
    { mode := LEAK_SHUTDOWN, cooldown_timer := COOLDOWN_CYCLES }
  else if st.mode = LEAK_SHUTDOWN ∧ s.water_leak_detected = false then
    { st with mode := COOLDOWN_RECOVERY }
  else if st.mode = COOLDOWN_RECOVERY ∧ st.cooldown_timer = 0 then
    { st with mode := NORMAL_OPERATION }
  else st

/-- One call of `step_control_logic`: returns the compressor command and the
state after the call. -/
def step_control_logic (prev_state : Int) (st : State) (s : Sensors) : Int × State :=
  let st1 := mode_transition st s
  if st1.mode = LEAK_SHUTDOWN then
    (COMPRESSOR_OFF, st1)
  else if st1.mode = COOLDOWN_RECOVERY then
    (COMPRESSOR_OFF,
      if st1.cooldown_timer > 0 then { st1 with cooldown_timer := st1.cooldown_timer - 1 }
      else st1)
  else
    if !s.unit_enabled_by_master then (COMPRESSOR_OFF, st1)
    else if s.server_cpu_load_percent > 90 ∨ s.rack_inlet_temp_c > TEMP_HIGH_THRESHOLD_C then
      (COMPRESSOR_ON, st1)
    else if s.rack_inlet_temp_c < TEMP_LOW_THRESHOLD_C then (COMPRESSOR_OFF, st1)
    else (prev_state, st1)

end DataCenterCooling

/-! ## Welding robot controller (`problems_30/prob4.c`) -/

namespace WeldingRobot

def MOTOR_CMD_STOP : Int := 0
def MOTOR_CMD_MOVE : Int := 1

inductive robot_mode_t where
  | NORMAL
  | SLOW_START
  | EMERGENCY_STOP
  deriving DecidableEq, Repr

open robot_mode_t

/-- The state touched by `step_control_logic`: the mode behind the `mode`
pointer and the globals `program_path_step` and `total_path_steps`. -/
structure State where
  mode : robot_mode_t
  program_path_step : Int
  total_path_steps : Int
  deriving DecidableEq, Repr

/-- The mode transitions at the head of `step_control_logic`. -/
def mode_transition (mode : robot_mode_t) (human_in_safety_zone : Bool) : robot_mode_t :=
  if human_in_safety_zone then EMERGENCY_STOP
  else if mode = EMERGENCY_STOP ∧ human_in_safety_zone = false then SLOW_START
  else mode

/-- One call of `step_control_logic`: returns the motor command and the state
after the call. -/
def step_control_logic (prev_motor_command : Int) (st : State) (human_in_safety_zone : Bool) :
    Int × State :=
  let m := mode_transition st.mode human_in_safety_zone
  if m = EMERGENCY_STOP then
    (MOTOR_CMD_STOP, { st with mode := m })
  else if m = SLOW_START then
    if prev_motor_command = MOTOR_CMD_STOP then (MOTOR_CMD_MOVE, { st with mode := NORMAL })
    else (MOTOR_CMD_STOP, { st with mode := m })
  else
    if st.program_path_step < st.total_path_steps then
      (MOTOR_CMD_MOVE, { st with mode := m, program_path_step := st.program_path_step + 1 })
    else (MOTOR_CMD_STOP, { st with mode := m })

/-- The values of the volatile globals that one call reads. -/
structure TickInput where
  human_in_safety_zone : Bool
  program_path_step : Int
  total_path_steps : Int
  deriving DecidableEq, Repr

/-- What the loop of `main` holds after one iteration: `motor_prev`,
`motor_command` and `mode`. -/
structure LoopState where
  motor_prev : Int
  motor_command : Int
  mode : robot_mode_t
  deriving DecidableEq, Repr

/-- The loop of `main`: `motor_prev = motor_command;` then the call of
`step_control_logic`; collects the loop state after every iteration. -/
def run (motor_command : Int) (mode : robot_mode_t) : List TickInput → List LoopState
  | [] => []
  | e :: rest =>
    let r := step_control_logic motor_command
      ⟨mode, e.program_path_step, e.total_path_steps⟩ e.human_in_safety_zone
    ⟨motor_command, r.1, r.2.mode⟩ :: run r.1 r.2.mode rest

end WeldingRobot

/-! ## Elevator door controller (`problems_30/prob14.c`) -/

namespace ElevatorDoor

def MAX_DOOR_FORCE : Int := 50
def MAX_CLOSE_FORCE : Int := -30
def SOFT_CLOSE_FORCE : Int := -15
def DOOR_OPEN_FORCE : Int := 35
def DOOR_HOLD_FORCE : Int := 0
def LOBBY_FLOOR : Int := 1
def OBSTRUCTION_HOLD_CYCLES : Int := 5

/-- The simulated hardware inputs read by `step`. -/
structure Sensors where
  obstruction_detected : Bool
  command_close_door : Bool
  current_floor : Int
  special_hold_profile_active : Bool
  deriving DecidableEq, Repr

/-- The internal state (`static` timers). -/
structure State where
  hold_open_timer : Int
  obstruction_latch_timer : Int
  deriving DecidableEq, Repr

/-- Section 2 of `step`, the standard operational logic: door hold, closing and
opening. -/
def standard_logic (st : State) (s : Sensors) (last_door_force : Int) : Int × State :=
  if st.hold_open_timer > 0 then
    (DOOR_HOLD_FORCE, { st with hold_open_timer := st.hold_open_timer - 1 })
  else if s.command_close_door then
    if last_door_force > 0 then (SOFT_CLOSE_FORCE, st) else (MAX_CLOSE_FORCE, st)
  else
    if s.special_hold_profile_active then (DOOR_OPEN_FORCE, { st with hold_open_timer := 20 })
    else (DOOR_OPEN_FORCE, { st with hold_open_timer := 6 })

/-- Sections 1 and 2 of `step`: the obstruction override with its latch, else the
standard logic. -/
def select_force (st : State) (s : Sensors) (last_door_force : Int) : Int × State :=
  if s.obstruction_detected then
    (DOOR_OPEN_FORCE, { st with obstruction_latch_timer := OBSTRUCTION_HOLD_CYCLES })
  else if st.obstruction_latch_timer > 0 then
    (DOOR_OPEN_FORCE, { st with obstruction_latch_timer := st.obstruction_latch_timer - 1 })
  else standard_logic st s last_door_force

/-- Main elevator door control logic: returns the door motor force and the new
internal state. -/
def step (st : State) (s : Sensors) (last_door_force : Int) : Int × State :=
  let r := select_force st s last_door_force
  -- 3. compound safety saturation
  let f := if r.1 > MAX_DOOR_FORCE then MAX_DOOR_FORCE else r.1
  let f := if f < -MAX_DOOR_FORCE then -MAX_DOOR_FORCE else f
  let f := if s.obstruction_detected = true ∧ f < 0 then DOOR_OPEN_FORCE else f
  (f, r.2)

end ElevatorDoor

/-! ## Shift-left history arrays

Several programs keep a history window in a `float` array that is shifted left
by one slot before the newest value is stored in the last slot. -/

/-- The loop `for (i = 0; i < n; i++) a[i] = a[i + 1];`. -/
def shift_left_loop (a : List ℚ) (n : Nat) : List ℚ :=
  (List.range n).foldl (fun a i => a.set i (a.getD (i + 1) 0)) a

/-- The loop `shift_left_loop a n` followed by `a[n] = v;`. -/
def shift_push (a : List ℚ) (n : Nat) (v : ℚ) : List ℚ := (shift_left_loop a n).set n v

/-- The history window as the specification describes it: ordered oldest to
newest, and a push into the full window evicts the oldest entry. -/
def spec_window_push (w : List ℚ) (v : ℚ) : List ℚ := w.tail ++ [v]

/-! ## Smart infusion pump safety monitor (`problems_major/medical_infusion_pump.c`) -/

namespace MedicalInfusionPump

def PRESSURE_THRESHOLD : ℚ := 15
def DOSE_LIMIT_PERCENT : ℚ := 95 / 100
def HISTORY_SIZE : Nat := 12

structure InfusionState where
  flow_rate_ml_hr : ℚ
  total_dose_delivered : ℚ
  prescribed_limit : ℚ
  downstream_pressure : ℚ
  air_bubble_sensor : Int
  pump_state : Int
  rate_history : List ℚ
  dose_history : List ℚ
  air_sensor_history : List Int
  deriving DecidableEq, Repr

/-- What one call of `verify_infusion_safety` reports: which of the three
`[SAFETY] FAILURE` lines it prints, and the value it returns. -/
structure SafetyVerdict where
  air_failure : Bool
  pressure_failure : Bool
  rate_failure : Bool
  safe : Bool
  deriving DecidableEq, Repr

/-- The scan of invariant 3 over the remaining loop indices; `true` is the
`safe = false; break;` exit. -/
def rate_scan (i : InfusionState) (threshold : ℚ) : List Nat → Bool
  | [] => false
  | idx :: rest =>
    if i.dose_history.getD idx 0 > threshold ∧ i.dose_history.getD (idx + 1) 0 > threshold then
      if i.rate_history.getD (idx + 1) 0 > i.rate_history.getD idx 0 then true
      else rate_scan i threshold rest
    else rate_scan i threshold rest

def verify_infusion_safety (i : InfusionState) : SafetyVerdict :=
  -- invariant 1: temporal air detection
  let air := decide (i.air_sensor_history.getD 0 0 = 1 ∧ i.air_sensor_history.getD 1 0 = 1
    ∧ i.pump_state ≠ 0)
  -- invariant 2: pressure occlusion
  let pressure := decide (i.downstream_pressure > PRESSURE_THRESHOLD ∧ i.pump_state ≠ 0)
  -- invariant 3: dosage/rate segment analysis
  let threshold := i.prescribed_limit * DOSE_LIMIT_PERCENT
  let rate := rate_scan i threshold (List.range (HISTORY_SIZE - 1))
  { air_failure := air, pressure_failure := pressure, rate_failure := rate,
    safe := !(air || pressure || rate) }

/-- A contiguous segment in the words of the specification: `[a, b]` is a
maximal run of consecutive history indices whose dose exceeds the threshold. -/
def is_maximal_run (dose : List ℚ) (threshold : ℚ) (a b : Nat) : Prop :=
  a ≤ b ∧ b < HISTORY_SIZE ∧
  (∀ k, a ≤ k → k < b + 1 → dose.getD k 0 > threshold) ∧
  (a = 0 ∨ ¬ dose.getD (a - 1) 0 > threshold) ∧
  (b + 1 = HISTORY_SIZE ∨ ¬ dose.getD (b + 1) 0 > threshold)

instance (dose : List ℚ) (threshold : ℚ) (a b : Nat) :
    Decidable (is_maximal_run dose threshold a b) := by
  unfold is_maximal_run; infer_instance

/-- The contiguous-segment invariant in the words of the specification is
violated: some maximal run above the threshold contains two adjacent indices
between which the rate increases. -/
def spec_segment_violation (i : InfusionState) (threshold : ℚ) : Prop :=
  ∃ a < HISTORY_SIZE, ∃ b < HISTORY_SIZE, is_maximal_run i.dose_history threshold a b ∧
    ∃ k < b, a ≤ k ∧ i.rate_history.getD (k + 1) 0 > i.rate_history.getD k 0

instance (i : InfusionState) (threshold : ℚ) : Decidable (spec_segment_violation i threshold) := by
  unfold spec_segment_violation; infer_instance

/-- The pump state set up by `init_infusion_system`. -/
def init_infusion_system : InfusionState :=
  { flow_rate_ml_hr := 10, total_dose_delivered := 0, prescribed_limit := 500,
    downstream_pressure := 5 / 2, air_bubble_sensor := 0, pump_state := 1,
    rate_history := List.replicate HISTORY_SIZE 10,
    dose_history := List.replicate HISTORY_SIZE 0,
    air_sensor_history := [0, 0] }

def update_history_buffers (i : InfusionState) : InfusionState :=
  { i with
    -- shift history windows left and update newest entries
    rate_history := shift_push i.rate_history (HISTORY_SIZE - 1) i.flow_rate_ml_hr
    dose_history := shift_push i.dose_history (HISTORY_SIZE - 1) i.total_dose_delivered
    -- shift binary air sensor history
    air_sensor_history :=
      (i.air_sensor_history.set 0 (i.air_sensor_history.getD 1 0)).set 1 i.air_bubble_sensor }

/-- What the environment decides in one tick: the outcomes of the `rand()`
tests and the value of the `sin` call. -/
structure TickInput where
  downstream_pressure : ℚ
  air_bubble : Bool
  surge : Bool
  sin_value : ℚ
  deriving DecidableEq, Repr

def simulate_hardware_sensors (i : InfusionState) (e : TickInput) : InfusionState :=
  { i with
    downstream_pressure := e.downstream_pressure
    air_bubble_sensor := if e.air_bubble then 1 else 0
    total_dose_delivered :=
      if i.pump_state = 1 then i.total_dose_delivered + i.flow_rate_ml_hr / 3600
      else i.total_dose_delivered }

def control_pump_logic (i : InfusionState) (e : TickInput) : InfusionState :=
  -- basic stop logic
  let i1 : InfusionState :=
    if i.total_dose_delivered ≥ i.prescribed_limit then
      { i with pump_state := 0, flow_rate_ml_hr := 0 }
    else i
  -- accidental surge
  if i1.total_dose_delivered > i1.prescribed_limit * (94 / 100) then
    if e.surge then { i1 with flow_rate_ml_hr := i1.flow_rate_ml_hr + 1 / 2 } else i1
  else if i1.pump_state = 1 then { i1 with flow_rate_ml_hr := 10 + e.sin_value }
  else i1

/-- Steps 1 to 4 of the loop of `main`: the pump state after the tick and what
`verify_infusion_safety` reports on it. -/
def main_cycle (i : InfusionState) (e : TickInput) : InfusionState × SafetyVerdict :=
  let i1 := update_history_buffers i
  let i2 := simulate_hardware_sensors i1 e
  let i3 := control_pump_logic i2 e
  (i3, verify_infusion_safety i3)

/-- A tick in which the air sensor reads 1. -/
def air_tick : TickInput :=
  { downstream_pressure := 3, air_bubble := true, surge := false, sin_value := 0 }

/-- A tick in which the air sensor reads 0. -/
def clear_tick : TickInput :=
  { downstream_pressure := 3, air_bubble := false, surge := false, sin_value := 0 }

/-- The pump after `n` ticks with air in the line, from `init_infusion_system`. -/
def air_run : Nat → InfusionState
  | 0 => init_infusion_system
  | n + 1 => (main_cycle (air_run n) air_tick).1

/-- A pump state whose history window exceeds the threshold 95 at indices 1, 2
and 3 only, and whose rate rises only across the segment boundaries 0 to 1 and
3 to 4. -/
def boundary_window : InfusionState :=
  { flow_rate_ml_hr := 3, total_dose_delivered := 90, prescribed_limit := 100,
    downstream_pressure := 3, air_bubble_sensor := 0, pump_state := 1,
    rate_history := [1, 2, 2, 2, 3, 3, 3, 3, 3, 3, 3, 3],
    dose_history := [90, 96, 97, 98, 90, 0, 0, 0, 0, 0, 0, 0],
    air_sensor_history := [0, 0] }

end MedicalInfusionPump

/-! ## Warehouse robot (`problems_major/warehouse_robot.c`) -/

namespace WarehouseRobot

def SPEED_HISTORY_SIZE : Nat := 4

structure RobotState where
  x_pos : ℚ
  y_pos : ℚ
  current_speed : ℚ
  motor_torque : ℚ
  steering_angle : ℚ
  brake_pressure : ℚ
  carried_load_kg : ℚ
  dist_to_obstacle : ℚ
  speed_history : List ℚ
  deriving DecidableEq, Repr

def update_speed_history (r : RobotState) (new_speed : ℚ) : RobotState :=
  { r with speed_history := shift_push r.speed_history (SPEED_HISTORY_SIZE - 1) new_speed }

end WarehouseRobot

/-! ## Car simulation (`problems_major/car_simulation.c`) -/

namespace CarSimulation

def HISTORY_SIZE : Nat := 10
def MAX_LEGAL_SPEED : ℚ := 140
def SPEED_WINDOW_MIN : ℚ := 40
def SPEED_WINDOW_MAX : ℚ := 50
def MAX_ACCEL_IN_WINDOW : ℚ := 5

/-- The fields of `Car` that the physics and the safety protocol use. -/
structure Car where
  current_speed : ℚ
  previous_speed : ℚ
  gear : Int
  odometer : ℚ
  fuel_level : ℚ
  acceleration : ℚ
  speed_history : List ℚ
  history_index : Int
  deriving DecidableEq, Repr

structure Driver where
  accel_pedal : ℚ
  brake_pedal : ℚ
  deriving DecidableEq, Repr

def init_systems : Car :=
  { current_speed := 0, previous_speed := 0, gear := 1, odometer := 0, fuel_level := 100,
    history_index := 0, acceleration := 0, speed_history := List.replicate HISTORY_SIZE 0 }

def update_physics (c : Car) (d : Driver) : Car :=
  let previous_speed := c.current_speed
  let force := d.accel_pedal * 80 - d.brake_pedal * 120
  let friction := c.current_speed * (5 / 100)
  let acceleration := (force - friction) * (1 / 10)
  let speed := c.current_speed + acceleration
  let speed := if speed < 0 then 0 else speed
  { c with
    previous_speed := previous_speed
    acceleration := acceleration
    current_speed := speed
    -- update history (circular buffer)
    speed_history := c.speed_history.set c.history_index.toNat speed
    history_index := Int.tmod (c.history_index + 1) HISTORY_SIZE
    odometer := c.odometer + speed * (1 / 10000)
    fuel_level := c.fuel_level - speed * (5 / 100000) }

/-- The sum computed by rule 3 of `check_safety_protocol`. -/
def history_sum (c : Car) : ℚ :=
  (List.range HISTORY_SIZE).foldl (fun sum i => sum + c.speed_history.getD i 0) 0

def check_safety_protocol (c : Car) : Bool :=
  let safe := true
  let safe := if c.current_speed > MAX_LEGAL_SPEED then false else safe
  let safe :=
    if c.gear = 2 ∧ c.current_speed ≥ SPEED_WINDOW_MIN ∧ c.current_speed ≤ SPEED_WINDOW_MAX
      ∧ c.current_speed - c.previous_speed > MAX_ACCEL_IN_WINDOW then false else safe
  let avg_speed := history_sum c / HISTORY_SIZE
  if avg_speed > 60 ∧ c.gear < 3 then false else safe

/-- The car after the calls of `update_physics` for the driver inputs `ds`. -/
def drive (c : Car) (ds : List Driver) : Car := ds.foldl update_physics c

/-- The speeds stored by those calls, in push order. -/
def pushed_speeds (c : Car) : List Driver → List ℚ
  | [] => []
  | d :: ds => (update_physics c d).current_speed :: pushed_speeds (update_physics c d) ds

/-- The ring buffer read cyclically from `history_index`: oldest entry first. -/
def cyclic_read (c : Car) : List ℚ :=
  (List.range HISTORY_SIZE).map
    (fun k => c.speed_history.getD ((c.history_index.toNat + k) % HISTORY_SIZE) 0)

/-- The ring buffer is well formed: 10 slots and an index inside them. -/
def ring_ok (c : Car) : Prop :=
  c.speed_history.length = HISTORY_SIZE ∧ 0 ≤ c.history_index ∧ c.history_index < HISTORY_SIZE

end CarSimulation

/-! ## Chemical reactor (`problems_major/chemical_reactor.c`) -/

namespace ChemicalReactor

def CRITICAL_PRESSURE : ℚ := 150
def HIGH_CONCENTRATION : ℚ := 80
def MAX_TEMP_DELTA : ℚ := 8
def WINDOW_SIZE : Nat := 5
def COOLING_THRESHOLD : ℚ := 340

structure ReactorState where
  internal_temp : ℚ
  prev_temp : ℚ
  internal_pressure : ℚ
  reactant_conc : ℚ
  emergency_vent : Int
  cooling_pump_pwr : Int
  deriving DecidableEq, Repr

structure SafetyController where
  temp_window : List ℚ
  pump_max_duration : Int
  system_halted : Bool
  total_violations : Int
  deriving DecidableEq, Repr

/-- The reactor state and safety controller set up by `init_systems`. -/
def init_systems : ReactorState × SafetyController :=
  ({ internal_temp := 300, prev_temp := 300, internal_pressure := 147 / 10, reactant_conc := 100,
     emergency_vent := 0, cooling_pump_pwr := 0 },
   { pump_max_duration := 0, system_halted := false, total_violations := 0,
     temp_window := List.replicate WINDOW_SIZE 300 })

/-- What one call of `monitor_safety_invariants` does: the reactor state and
the safety controller behind its two pointers after the call, which of its
messages it prints, and the value it returns. -/
structure MonitorResult where
  reactor : ReactorState
  controller : SafetyController
  pressure_failure : Bool
  ramp_failure : Bool
  thermal_runaway : Bool
  fatal : Bool
  safe : Bool
  deriving DecidableEq, Repr

/-- The trend loop of invariant 3 over the remaining indices; `false` is the
`strictly_increasing = false; break;` exit. -/
def strictly_increasing (w : List ℚ) : List Nat → Bool
  | [] => true
  | i :: rest => if w.getD (i + 1) 0 ≤ w.getD i 0 then false else strictly_increasing w rest

def monitor_safety_invariants (r : ReactorState) (s : SafetyController) : MonitorResult :=
  -- update history: shift window and insert current temp
  let temp_window := shift_push s.temp_window (WINDOW_SIZE - 1) r.internal_temp
  -- invariant 1: pressure/vent check
  let pressure := decide (r.internal_pressure > CRITICAL_PRESSURE ∧ r.emergency_vent ≠ 1)
  -- invariant 2: exothermic ramp check
  let ramp := decide (r.reactant_conc > HIGH_CONCENTRATION
    ∧ r.internal_temp - r.prev_temp > MAX_TEMP_DELTA)
  -- invariant 3: temporal cooling efficiency
  let pump_max_duration :=
    if r.cooling_pump_pwr = 100 then wrap32 (s.pump_max_duration + 1) else 0
  let runaway :=
    if pump_max_duration ≥ WINDOW_SIZE then
      strictly_increasing temp_window (List.range (WINDOW_SIZE - 1))
    else false
  -- global catastrophic threshold
  let fatal := decide (r.internal_temp > 550 ∨ r.internal_pressure > 250)
  { reactor := r
    controller :=
      { s with
        temp_window := temp_window
        pump_max_duration := pump_max_duration
        system_halted := if fatal then true else s.system_halted }
    pressure_failure := pressure
    ramp_failure := ramp
    thermal_runaway := runaway
    fatal := fatal
    safe := !(pressure || ramp || runaway || fatal) }

/-- Step 5 of the loop of `main`: the monitor call and the violation count. -/
def monitor_cycle (s : SafetyController) (r : ReactorState) : SafetyController :=
  let m := monitor_safety_invariants r s
  if m.safe then m.controller
  else { m.controller with total_violations := wrap32 (m.controller.total_violations + 1) }

/-- The safety controller after the monitor has seen the reactor states `rs`,
one per cycle, oldest first. -/
def monitor_run (s : SafetyController) (rs : List ReactorState) : SafetyController :=
  rs.foldl monitor_cycle s

end ChemicalReactor

/-! ## Infusion pump rate controller (`problems_30/prob20.c`) -/

namespace InfusionPump

def MAX_PUMP_RATE_ML_HR : Int := 500
def DRUG_PROFILE_A_MAX_RATE : Int := 100
def DRUG_PROFILE_B_MAX_RATE : Int := 250
def HIGH_RATE_THRESHOLD_PERCENT : ℚ := 9 / 10
def HIGH_RATE_CYCLES_LIMIT : Int := 5

/-- The simulated hardware inputs read by `step`. -/
structure Sensors where
  target_rate_ml_hr : Int
  air_in_line_detected : Bool
  drug_profile_id : Int
  pump_enabled : Bool
  deriving DecidableEq, Repr

/-- The local `profile_max_rate` of `step`. -/
def profile_max_rate (s : Sensors) : Int :=
  if s.drug_profile_id = 1 then DRUG_PROFILE_A_MAX_RATE else DRUG_PROFILE_B_MAX_RATE

/-- The gradual ramp-up of `step`: the commanded rate before the lockout test. -/
def ramp_rate (s : Sensors) (last_pump_rate : Int) : Int :=
  if s.target_rate_ml_hr > profile_max_rate s then profile_max_rate s
  else if s.target_rate_ml_hr > wrap32 (last_pump_rate + 10) then wrap32 (last_pump_rate + 10)
  else s.target_rate_ml_hr

/-- The test `new_rate >= profile_max_rate * HIGH_RATE_THRESHOLD_PERCENT`. -/
def is_high_rate (s : Sensors) (new_rate : Int) : Prop :=
  (new_rate : ℚ) ≥ (profile_max_rate s : ℚ) * HIGH_RATE_THRESHOLD_PERCENT

instance (s : Sensors) (new_rate : Int) : Decidable (is_high_rate s new_rate) := by
  unfold is_high_rate; infer_instance

/-- The branches of `step` before the final saturation: the new rate and the
new value of `*high_rate_counter`. -/
def select_rate (last_pump_rate : Int) (high_rate_counter : Int) (s : Sensors) : Int × Int :=
  if s.air_in_line_detected then (0, 0)
  else if s.pump_enabled then
    let new_rate := ramp_rate s last_pump_rate
    if is_high_rate s new_rate then
      let c := wrap32 (high_rate_counter + 1)
      if c > HIGH_RATE_CYCLES_LIMIT then (0, 0) else (new_rate, c)
    else (new_rate, 0)
  else (0, 0)

/-- One call of `step`: returns the pump rate and the new value of
`*high_rate_counter`. -/
def step (last_pump_rate : Int) (high_rate_counter : Int) (s : Sensors) : Int × Int :=
  let r := select_rate last_pump_rate high_rate_counter s
  let rate := if r.1 < 0 then 0 else r.1
  let rate := if rate > MAX_PUMP_RATE_ML_HR then MAX_PUMP_RATE_ML_HR else rate
  (rate, r.2)

/-- The loop of `main`: each returned rate is the next call's `last_pump_rate`;
collects the rate and counter after every call, oldest first. -/
def run (pump_rate : Int) (high_rate_counter : Int) : List Sensors → List (Int × Int)
  | [] => []
  | s :: rest =>
    step pump_rate high_rate_counter s
      :: run (step pump_rate high_rate_counter s).1 (step pump_rate high_rate_counter s).2 rest

/-- Every call of the run sees no air in the line, an enabled pump and a
commanded rate at or above 90% of the profile maximum. -/
def sustained_high_rate (pump_rate : Int) (high_rate_counter : Int) : List Sensors → Prop
  | [] => True
  | s :: rest =>
    s.air_in_line_detected = false ∧ s.pump_enabled = true ∧
    is_high_rate s (ramp_rate s pump_rate) ∧
    sustained_high_rate (step pump_rate high_rate_counter s).1
      (step pump_rate high_rate_counter s).2 rest

end InfusionPump

/-! ## Dam spillway gate controller (`problems_30/prob11.c`) -/

namespace DamGate

def MAX_GATE_OPENING : Int := 100
def MIN_GATE_OPENING : Int := 0
def EMERGENCY_OPENING : Int := 100
def MAX_GATE_STEP : Int := 10

inductive dam_mode_t where
  | NORMAL_OPERATION
  | FLOOD_EMERGENCY
  | RECOVERY_MODE
  deriving DecidableEq, Repr

open dam_mode_t

/-- The simulated hardware inputs. -/
structure Sensors where
  upstream_flood_detected : Bool
  reservoir_level : Int
  seasonal_water_demand : Int
  deriving DecidableEq, Repr

def clamp (v lo hi : Int) : Int := if v < lo then lo else if v > hi then hi else v

/-- The mode transitions at the head of `step_control_logic`. -/
def mode_transition (mode : dam_mode_t) (s : Sensors) : dam_mode_t :=
  if s.upstream_flood_detected then FLOOD_EMERGENCY
  else if mode = FLOOD_EMERGENCY then RECOVERY_MODE
  else mode

/-- One call of `step_control_logic`: returns the gate opening and the mode
after the call. -/
def step_control_logic (prev_gate_opening : Int) (mode : dam_mode_t) (s : Sensors) :
    Int × dam_mode_t :=
  let m := mode_transition mode s
  let r : Int × dam_mode_t :=
    if m = FLOOD_EMERGENCY then (EMERGENCY_OPENING, m)
    else if m = RECOVERY_MODE then
      if prev_gate_opening > s.seasonal_water_demand then
        (wrap32 (prev_gate_opening - MAX_GATE_STEP), m)
      else (prev_gate_opening, NORMAL_OPERATION)
    else
      if s.reservoir_level > 95 then (wrap32 (s.seasonal_water_demand + 20), m)
      else (s.seasonal_water_demand, m)
  (clamp r.1 MIN_GATE_OPENING MAX_GATE_OPENING, r.2)

end DamGate

/-! ## Furnace ignition controller (`problems_30/prob17.c`) -/

namespace Furnace

def VALVE_CLOSED : Int := 0
def VALVE_OPEN : Int := 1
def IGNITION_TIMEOUT : Int := 5
def PREPURGE_TIME : Int := 3
def MAX_IGNITION_ATTEMPTS : Int := 3

/-- The sensor inputs that `step_control_logic` only reads. -/
structure Sensors where
  thermostat_calls_for_heat : Bool
  flame_detected : Bool
  deriving DecidableEq, Repr

/-- The globals that `step_control_logic` reads and writes. -/
structure State where
  time_since_valve_open : Int
  ignition_attempts : Int
  lockout_active : Bool
  prepurge_timer : Int
  deriving DecidableEq, Repr

/-- The valve-open and valve-closed branches of `step_control_logic`, entered
when the controller is not in lockout. -/
def valve_logic (current_valve_state : Int) (st : State) (s : Sensors) : Int × State :=
  if current_valve_state = VALVE_OPEN then
    let t := wrap32 (st.time_since_valve_open + 1)
    if s.flame_detected = false ∧ t > IGNITION_TIMEOUT then
      let a := wrap32 (st.ignition_attempts + 1)
      (VALVE_CLOSED,
        { st with
          time_since_valve_open := t
          ignition_attempts := a
          lockout_active := if a ≥ MAX_IGNITION_ATTEMPTS then true else st.lockout_active })
    else (current_valve_state, { st with time_since_valve_open := t })
  else
    if s.thermostat_calls_for_heat then
      if st.prepurge_timer < PREPURGE_TIME then
        (current_valve_state, { st with prepurge_timer := wrap32 (st.prepurge_timer + 1) })
      else (VALVE_OPEN, { st with time_since_valve_open := 0, prepurge_timer := 0 })
    else (current_valve_state, st)

/-- The local `safety_ok` of `step_control_logic`. -/
def safety_ok (new_valve_state : Int) (st : State) (s : Sensors) : Prop :=
  new_valve_state = VALVE_CLOSED ∨
  (s.thermostat_calls_for_heat = true ∧ st.lockout_active = false ∧
    st.ignition_attempts ≤ MAX_IGNITION_ATTEMPTS ∧
    (s.flame_detected = true ∨ st.time_since_valve_open ≤ IGNITION_TIMEOUT))

instance (v : Int) (st : State) (s : Sensors) : Decidable (safety_ok v st s) := by
  unfold safety_ok; infer_instance

/-- One call of `step_control_logic`: returns the valve state and the globals
after the call. -/
def step_control_logic (current_valve_state : Int) (st : State) (s : Sensors) : Int × State :=
  if st.lockout_active then (VALVE_CLOSED, st)
  else
    let r := valve_logic current_valve_state st s
    if safety_ok r.1 r.2 s then r
    else (VALVE_CLOSED, { r.2 with lockout_active := true })

end Furnace

/-! ## Smart grid substation (`problems_major/smart_grid_substation.c`) -/

namespace SmartGrid

def ZONE_COUNT : Nat := 3
def OVERLOAD_WINDOW : Nat := 3
def NOMINAL_FREQ : ℚ := 60
def FREQ_TOLERANCE : ℚ := 8 / 10
def SHORT_CIRCUIT_IMPEDANCE : ℚ := 1 / 2

structure GridState where
  bus_voltage : ℚ
  active_load_amps : List ℚ
  breaker_rating : List ℚ
  breaker_status : List Int
  grid_frequency : ℚ
  phase_correction_active : Int
  fault_indicator : Int
  load_history : List (List ℚ)
  deriving DecidableEq, Repr

/-- The grid state set up by `init_substation`. -/
def init_substation : GridState :=
  { bus_voltage := 230, grid_frequency := 60, phase_correction_active := 0,
    fault_indicator := 0,
    breaker_rating := (List.range ZONE_COUNT).map (fun i => 50 + (i : ℚ) * 25),
    active_load_amps := List.replicate ZONE_COUNT 10,
    breaker_status := List.replicate ZONE_COUNT 1,
    load_history := List.replicate ZONE_COUNT (List.replicate OVERLOAD_WINDOW 0) }

def shift_load_history (g : GridState) : GridState :=
  { g with
    load_history := (List.range ZONE_COUNT).foldl
      (fun h i => h.set i
        (shift_push (h.getD i []) (OVERLOAD_WINDOW - 1) (g.active_load_amps.getD i 0)))
      g.load_history }

/-- What the `rand()` calls of `simulate_power_flow` decide in one tick. -/
structure PowerFlow where
  bus_voltage : ℚ
  frequency_step : ℚ
  surge : List Bool
  base_load : List ℚ
  deriving DecidableEq, Repr

def simulate_power_flow (g : GridState) (e : PowerFlow) : GridState :=
  { g with
    bus_voltage := e.bus_voltage
    grid_frequency := g.grid_frequency + e.frequency_step
    active_load_amps := (List.range ZONE_COUNT).foldl
      (fun a i => a.set i
        (if g.breaker_status.getD i 0 ≠ 0 then
          (if e.surge.getD i false then a.getD i 0 + 40 else e.base_load.getD i 0)
         else 0))
      g.active_load_amps }

def grid_controller (g : GridState) (fault_reset : Bool) : GridState :=
  { g with
    phase_correction_active := if |g.grid_frequency - NOMINAL_FREQ| > 1 / 2 then 1 else 0
    fault_indicator := if fault_reset then 0 else g.fault_indicator }

/-- The inner loop of invariant 1 over the remaining indices; `false` is the
`sustained_overload = false; break;` exit. -/
def sustained_overload (history : List ℚ) (rating : ℚ) : List Nat → Bool
  | [] => true
  | j :: rest =>
    if history.getD j 0 ≤ rating then false else sustained_overload history rating rest

/-- What one call of `verify_substation_integrity` reports: per zone, whether
it prints the overcurrent and the impedance message, whether it prints the PLL
message, and the value it returns. -/
structure IntegrityReport where
  overcurrent : List Bool
  impedance_fault : List Bool
  pll_failure : Bool
  safe : Bool
  deriving DecidableEq, Repr

def verify_substation_integrity (g : GridState) : IntegrityReport :=
  let overcurrent := (List.range ZONE_COUNT).map (fun i =>
    sustained_overload (g.load_history.getD i []) (g.breaker_rating.getD i 0)
        (List.range OVERLOAD_WINDOW)
      && decide (g.breaker_status.getD i 0 = 1))
  let impedance_fault := (List.range ZONE_COUNT).map (fun i =>
    decide (g.breaker_status.getD i 0 = 1 ∧ g.active_load_amps.getD i 0 > 1 ∧
      g.bus_voltage / g.active_load_amps.getD i 0 < SHORT_CIRCUIT_IMPEDANCE ∧
      g.fault_indicator = 0))
  let pll_failure := decide (|g.grid_frequency - NOMINAL_FREQ| > FREQ_TOLERANCE ∧
    g.phase_correction_active = 0)
  { overcurrent := overcurrent, impedance_fault := impedance_fault, pll_failure := pll_failure,
    safe := !(overcurrent.any id || impedance_fault.any id || pll_failure) }

/-- What the environment decides in one tick of `main`. -/
structure TickInput where
  flow : PowerFlow
  fault_reset : Bool
  deriving DecidableEq, Repr

/-- Steps 1 to 3 of the loop of `main`: the grid state on which step 4 calls
`verify_substation_integrity`. -/
def main_cycle (g : GridState) (e : TickInput) : GridState :=
  grid_controller (simulate_power_flow (shift_load_history g) e.flow) e.fault_reset

/-- The load history has `ZONE_COUNT` rows of `OVERLOAD_WINDOW` entries. -/
def history_ok (g : GridState) : Prop :=
  g.load_history.length = ZONE_COUNT ∧
  ∀ z, z < ZONE_COUNT → (g.load_history.getD z []).length = OVERLOAD_WINDOW

/-- A tick in which zone 0 surges and the other zones draw 25 A. -/
def surge_zone0 : TickInput :=
  { flow := { bus_voltage := 230, frequency_step := 0, surge := [true, false, false],
              base_load := [25, 25, 25] },
    fault_reset := false }

/-- The grid after `n` ticks in which zone 0 surges, from `init_substation`. -/
def surged : Nat → GridState
  | 0 => init_substation
  | n + 1 => main_cycle (surged n) surge_zone0

end SmartGrid

/-! ## Pipeline pressure regulator (`problems_30/prob23.c`) -/

namespace Pipeline

def MAX_VALVE_POSITION : Int := 100
def MIN_VALVE_POSITION : Int := 0
def OVERPRESSURE_THRESHOLD : Int := 800
def PRESSURE_HYSTERESIS : Int := 50
def MAX_OPEN_RATE : Int := 15
def MAX_CLOSE_RATE : Int := 25
def SENSOR_FAULT_THRESHOLD : Int := 1100

/-- The simulated inputs. -/
structure Sensors where
  upstream_pressure : Int
  downstream_demand : Int
  deriving DecidableEq, Repr

/-- The internal controller state (both are globals of the program). -/
structure State where
  emergency_shutdown_latched : Bool
  last_valve_position : Int
  deriving DecidableEq, Repr

/-- The controller state at program start. -/
def init_state : State := { emergency_shutdown_latched := false, last_valve_position := 50 }

/-- Stages 1 to 4 of `step_control_logic`: the desired position and the new
value of the latch. -/
def desired_position (st : State) (s : Sensors) : Int × Bool :=
  if s.upstream_pressure > SENSOR_FAULT_THRESHOLD then (MIN_VALVE_POSITION, true)
  else if s.upstream_pressure > OVERPRESSURE_THRESHOLD then (MIN_VALVE_POSITION, true)
  else if st.emergency_shutdown_latched then
    if s.upstream_pressure < OVERPRESSURE_THRESHOLD - PRESSURE_HYSTERESIS then
      (s.downstream_demand, false)
    else (MIN_VALVE_POSITION, true)
  else (s.downstream_demand, st.emergency_shutdown_latched)

/-- Stage 5 of `step_control_logic`: rate limiting. -/
def rate_limit (last_valve_position desired : Int) : Int :=
  if desired > last_valve_position then
    if wrap32 (desired - last_valve_position) > MAX_OPEN_RATE then
      wrap32 (last_valve_position + MAX_OPEN_RATE)
    else desired
  else
    if wrap32 (last_valve_position - desired) > MAX_CLOSE_RATE then
      wrap32 (last_valve_position - MAX_CLOSE_RATE)
    else desired

/-- One call of `step_control_logic`: returns the valve position and the new
controller state. -/
def step_control_logic (st : State) (s : Sensors) : Int × State :=
  let d := desired_position st s
  let p := rate_limit st.last_valve_position d.1
  let p := if p > MAX_VALVE_POSITION then MAX_VALVE_POSITION else p
  let p := if p < MIN_VALVE_POSITION then MIN_VALVE_POSITION else p
  (p, { emergency_shutdown_latched := d.2, last_valve_position := p })

end Pipeline

/-! ## Robotic arm controller (`problems_30/prob25.c`) -/

namespace RoboticArm

def MAX_MOTOR_TORQUE : Int := 100
def MAX_TORQUE_SLEW : Int := 20
def COLLISION_FORCE_N : ℚ := 50
def POSITION_TOLERANCE : Int := 5
def TORQUE_PROFILE_FAST : Int := 80
def TORQUE_PROFILE_PRECISE : Int := 30
def SENSOR_FORCE_MAX : ℚ := 500

/-- The simulated hardware inputs read by `step`. -/
structure Sensors where
  target_position : Int
  current_position : Int
  force_sensor_n : ℚ
  speed_profile : Int
  motion_enabled : Bool
  deriving DecidableEq, Repr

def clamp (value min max : Int) : Int :=
  if value < min then min else if value > max then max else value

def apply_slew_rate (last target : Int) : Int :=
  if target > wrap32 (last + MAX_TORQUE_SLEW) then wrap32 (last + MAX_TORQUE_SLEW)
  else if target < wrap32 (last - MAX_TORQUE_SLEW) then wrap32 (last - MAX_TORQUE_SLEW)
  else target

/-- The local `position_error` of `step`. -/
def position_error (s : Sensors) : Int := wrap32 (s.target_position - s.current_position)

/-- One of the branches 1 to 3 of `step` is taken: sensor fault, collision, or
motion disabled / at target. -/
def override_active (s : Sensors) : Prop :=
  (s.force_sensor_n < 0 ∨ s.force_sensor_n > SENSOR_FORCE_MAX) ∨
  s.force_sensor_n > COLLISION_FORCE_N ∨
  (s.motion_enabled = false ∨ wrap32 |position_error s| ≤ POSITION_TOLERANCE)

instance (s : Sensors) : Decidable (override_active s) := by
  unfold override_active; infer_instance

/-- Main control logic: returns the torque command. -/
def step (last_torque : Int) (s : Sensors) : Int :=
  let new_torque :=
    if s.force_sensor_n < 0 ∨ s.force_sensor_n > SENSOR_FORCE_MAX then 0
    else if s.force_sensor_n > COLLISION_FORCE_N then 0
    else if s.motion_enabled = false ∨ wrap32 |position_error s| ≤ POSITION_TOLERANCE then 0
    else
      let base_torque :=
        if s.speed_profile = 0 then TORQUE_PROFILE_PRECISE else TORQUE_PROFILE_FAST
      let desired_torque := if position_error s > 0 then base_torque else -base_torque
      apply_slew_rate last_torque desired_torque
  clamp new_torque (-MAX_MOTOR_TORQUE) MAX_MOTOR_TORQUE

end RoboticArm

/-! ## Autonomous lawn mower controller (`problems_30/prob6.c`) -/

namespace LawnMower

def BLADE_OFF : Int := 0
def BLADE_ON : Int := 1
def MAX_TILT_ANGLE : Int := 30
def SAFE_TILT_ANGLE : Int := 20

inductive mower_mode_t where
  | MOWER_NORMAL
  | MOWER_TILT_SHUTDOWN
  | MOWER_RECOVERY
  deriving DecidableEq, Repr

open mower_mode_t

/-- The simulated hardware inputs. -/
structure Sensors where
  tilt_angle : Int
  follow_gps_path : Bool
  deriving DecidableEq, Repr

/-- The mode transitions at the head of `step_control_logic`. -/
def mode_transition (mode : mower_mode_t) (s : Sensors) : mower_mode_t :=
  if s.tilt_angle > MAX_TILT_ANGLE then MOWER_TILT_SHUTDOWN
  else if mode = MOWER_TILT_SHUTDOWN ∧ s.tilt_angle ≤ SAFE_TILT_ANGLE then MOWER_RECOVERY
  else mode

/-- One control step: returns the blade state and the mode after the call. -/
def step_control_logic (prev_blade_state : Int) (mode : mower_mode_t) (s : Sensors) :
    Int × mower_mode_t :=
  let m := mode_transition mode s
  if m = MOWER_TILT_SHUTDOWN then (BLADE_OFF, m)
  else if m = MOWER_RECOVERY then
    if prev_blade_state = BLADE_OFF then
      if s.follow_gps_path then (BLADE_ON, MOWER_NORMAL) else (BLADE_OFF, m)
    else (BLADE_OFF, m)
  else
    if s.follow_gps_path then (BLADE_ON, m) else (BLADE_OFF, m)

end LawnMower

/-! ## ABS controller (`problems_30/prob5.c`) -/

namespace AbsBrake

def MAX_BRAKE_PRESSURE : Int := 255
def NORMAL_SLIP_TARGET : Int := 15
def ICE_SLIP_TARGET : Int := 5
def PRESSURE_STEP_UP : Int := 20
def PRESSURE_STEP_DOWN : Int := 40

inductive abs_mode_t where
  | ABS_NORMAL
  | ABS_FAULT
  | ABS_RECOVERY
  deriving DecidableEq, Repr

open abs_mode_t

/-- The simulated hardware inputs. -/
structure Sensors where
  wheel_speed_kph : Int
  vehicle_speed_kph : Int
  driver_brake_request : Int
  ice_mode_enabled : Bool
  abs_system_fault : Bool
  deriving DecidableEq, Repr

/-- Compute slip percentage. -/
def compute_slip (s : Sensors) : Int :=
  if s.vehicle_speed_kph ≤ 0 then 0
  else Int.tdiv (wrap32 (100 * wrap32 (s.vehicle_speed_kph - s.wheel_speed_kph)))
    s.vehicle_speed_kph

/-- The local `slip_target` of `step_control_logic`. -/
def slip_target (s : Sensors) : Int :=
  if s.ice_mode_enabled then ICE_SLIP_TARGET else NORMAL_SLIP_TARGET

/-- The mode transitions at the head of `step_control_logic`. -/
def mode_transition (mode : abs_mode_t) (s : Sensors) : abs_mode_t :=
  if s.abs_system_fault then ABS_FAULT
  else if mode = ABS_FAULT ∧ s.abs_system_fault = false then ABS_RECOVERY
  else mode

/-- The control logic per mode, before saturation. -/
def select_pressure (prev_pressure : Int) (m : abs_mode_t) (s : Sensors) : Int :=
  if m = ABS_FAULT then s.driver_brake_request
  else if s.driver_brake_request = 0 then 0
  else if compute_slip s > slip_target s then wrap32 (prev_pressure - PRESSURE_STEP_DOWN)
  else wrap32 (prev_pressure + PRESSURE_STEP_UP)

/-- One control step: returns the brake pressure and the mode after the call. -/
def step_control_logic (prev_pressure : Int) (mode : abs_mode_t) (s : Sensors) :
    Int × abs_mode_t :=
  let m := mode_transition mode s
  let p := select_pressure prev_pressure m s
  let p := if p > s.driver_brake_request then s.driver_brake_request else p
  let p := if p > MAX_BRAKE_PRESSURE then MAX_BRAKE_PRESSURE else p
  let p := if p < 0 then 0 else p
  (p, m)

end AbsBrake

/-! ## Mine ventilation controller (`problems_30/prob21.c`) -/

namespace MineVentilation

def FAN_SPEED_MAX : Int := 100
def FAN_SPEED_NORMAL : Int := 60
def FAN_SPEED_IDLE : Int := 20
def METHANE_THRESHOLD : Int := 500
def HIGH_METHANE_DURATION : Int := 3

/-- The simulated hardware inputs. -/
structure Sensors where
  methane_level_ppm : Int
  is_work_shift_active : Bool
  deriving DecidableEq, Repr

/-- The ramp of the standard operational logic toward `target` by `delta`. -/
def ramp (last_fan_speed target delta : Int) : Int :=
  if last_fan_speed < target then
    (if wrap32 (last_fan_speed + delta) > target then target
     else wrap32 (last_fan_speed + delta))
  else if last_fan_speed > target then
    (if wrap32 (last_fan_speed - delta) < target then target
     else wrap32 (last_fan_speed - delta))
  else last_fan_speed

/-- One call of `step_control_logic`: returns the fan speed and the new value of
the global `high_methane_counter`. -/
def step_control_logic (last_fan_speed : Int) (high_methane_counter : Int) (s : Sensors) :
    Int × Int :=
  let r : Int × Int :=
    if s.methane_level_ppm > METHANE_THRESHOLD then
      (FAN_SPEED_MAX, wrap32 (high_methane_counter + 1))
    else if s.is_work_shift_active then (ramp last_fan_speed FAN_SPEED_NORMAL 5, 0)
    else (ramp last_fan_speed FAN_SPEED_IDLE 2, 0)
  let f := if r.1 > FAN_SPEED_MAX then FAN_SPEED_MAX else r.1
  let f := if f < 0 then 0 else f
  (f, r.2)

/-- The loop of `main`: each returned speed is the next call's `last_fan_speed`;
collects the fan speed and the counter after every call. -/
def run (fan_speed : Int) (high_methane_counter : Int) : List Sensors → List (Int × Int)
  | [] => []
  | s :: rest =>
    step_control_logic fan_speed high_methane_counter s
      :: run (step_control_logic fan_speed high_methane_counter s).1
          (step_control_logic fan_speed high_methane_counter s).2 rest

end MineVentilation

/-! ## Reactor control rod controller (`problems_30/prob22.c`) -/

namespace ControlRod

def ROD_FULLY_INSERTED : Int := 100
def ROD_FULLY_WITHDRAWN : Int := 0
def HIGH_TEMP_THRESHOLD : Int := 800
def TEMP_RATE_THRESHOLD : Int := 25
def SCRAM_HOLD_CYCLES : Int := 3
def MAX_ROD_STEP : Int := 10

/-- The simulated hardware inputs. -/
structure Sensors where
  coolant_temperature : Int
  last_coolant_temperature : Int
  seismic_event_detected : Bool
  power_grid_demand : Int
  deriving DecidableEq, Repr

/-- The internal safety state. -/
structure State where
  scram_active : Bool
  scram_timer : Int
  deriving DecidableEq, Repr

/-- Stage 1 of `step_control_logic`: SCRAM detection (latching). -/
def scram_detection (st : State) (s : Sensors) : State :=
  if s.seismic_event_detected = true ∨ s.coolant_temperature ≥ HIGH_TEMP_THRESHOLD then
    { scram_active := true, scram_timer := SCRAM_HOLD_CYCLES }
  else st

/-- Stages 3 and 4 of `step_control_logic`, before the final saturation. -/
def follow_demand (last_rod_depth : Int) (s : Sensors) : Int :=
  let temp_rate := wrap32 (s.coolant_temperature - s.last_coolant_temperature)
  if temp_rate > TEMP_RATE_THRESHOLD then wrap32 (last_rod_depth + MAX_ROD_STEP)
  else
    let target_depth := wrap32 (100 - Int.tdiv s.power_grid_demand 10)
    if target_depth > wrap32 (last_rod_depth + MAX_ROD_STEP) then
      wrap32 (last_rod_depth + MAX_ROD_STEP)
    else if target_depth < wrap32 (last_rod_depth - MAX_ROD_STEP) then
      wrap32 (last_rod_depth - MAX_ROD_STEP)
    else target_depth

/-- One call of `step_control_logic`: returns the rod depth and the safety state
after the call. -/
def step_control_logic (last_rod_depth : Int) (st : State) (s : Sensors) : Int × State :=
  let st1 := scram_detection st s
  if st1.scram_active then
    let t := wrap32 (st1.scram_timer - 1)
    (ROD_FULLY_INSERTED,
      { scram_timer := t
        scram_active :=
          if t ≤ 0 ∧ s.coolant_temperature < HIGH_TEMP_THRESHOLD - 50
              ∧ s.seismic_event_detected = false then false
          else st1.scram_active })
  else
    let d := follow_demand last_rod_depth s
    let d := if d > ROD_FULLY_INSERTED then ROD_FULLY_INSERTED else d
    let d := if d < ROD_FULLY_WITHDRAWN then ROD_FULLY_WITHDRAWN else d
    (d, st1)

end ControlRod

/-! ## Railway signal controller (`problems_30/prob24.c`) -/

namespace RailwaySignal

def STATE_RED : Int := 0
def STATE_YELLOW : Int := 1
def STATE_GREEN : Int := 2

/-- The simulated hardware inputs. -/
structure Sensors where
  track_occupied : Bool
  time_of_day : Int
  scheduled_train_due : Bool
  comms_link_ok : Bool
  sensor_health_ok : Bool
  deriving DecidableEq, Repr

/-- Main signal control logic. -/
def step (last_signal_state : Int) (s : Sensors) : Int :=
  if s.comms_link_ok = false then STATE_RED
  else if s.sensor_health_ok = false then STATE_RED
  else if s.track_occupied = true ∧ s.scheduled_train_due = false then STATE_RED
  else
    if s.scheduled_train_due = true ∧ s.track_occupied = false then
      if last_signal_state = STATE_RED then STATE_YELLOW else STATE_GREEN
    else STATE_RED

end RailwaySignal

/-! ## Submarine ballast tank controller (`problems_30/prob28.c`) -/

namespace Submarine

def PUMP_ACTION_FILL : Int := 1
def PUMP_ACTION_EMPTY : Int := -1
def PUMP_ACTION_HOLD : Int := 0

def CRUSH_DEPTH_PRESSURE : Int := 1000
def WARNING_PRESSURE : Int := 900
def MAX_SAFE_DEPTH : Int := 120
def MAX_DEPTH_RATE : Int := 5

/-- The simulated hardware inputs. -/
structure Sensors where
  hull_pressure : Int
  current_depth : Int
  previous_depth : Int
  target_depth : Int
  deriving DecidableEq, Repr

/-- Main control logic: returns the pump action. -/
def step_control_logic (s : Sensors) : Int :=
  let depth_rate := wrap32 (s.current_depth - s.previous_depth)
  if s.hull_pressure ≥ CRUSH_DEPTH_PRESSURE then PUMP_ACTION_EMPTY
  else if s.hull_pressure ≥ WARNING_PRESSURE ∧ depth_rate > MAX_DEPTH_RATE then PUMP_ACTION_EMPTY
  else
    if s.current_depth < s.target_depth then PUMP_ACTION_FILL
    else if s.current_depth > s.target_depth then PUMP_ACTION_EMPTY
    else PUMP_ACTION_HOLD

end Submarine

/-! # Theorems -/

namespace DroneMotor

theorem step_in_range (st : State) (s : Sensors) (last : Int)
    (h0 : MIN_THROTTLE ≤ last) (h1 : last ≤ MAX_THROTTLE) :
    MIN_THROTTLE ≤ (step st s last).1 ∧ (step st s last).1 ≤ MAX_THROTTLE := by
  simp only [step, MIN_THROTTLE, MAX_THROTTLE] at *
  generalize apply_rate_limit last (desired_throttle st s last).1 = x
  split_ifs <;> constructor <;> omega

theorem run_in_range (ss : List Sensors) : ∀ (st : State) (last : Int),
    MIN_THROTTLE ≤ last → last ≤ MAX_THROTTLE →
    ∀ t ∈ run st last ss, MIN_THROTTLE ≤ t ∧ t ≤ MAX_THROTTLE := by
  induction ss with
  | nil => intro st last _ _ t ht; simp [run] at ht
  | cons s rest ih =>
    intro st last h0 h1 t ht
    have hs := step_in_range st s last h0 h1
    simp only [run, List.mem_cons] at ht
    rcases ht with ht | ht
    · subst ht; exact hs
    · exact ih _ _ hs.1 hs.2 t ht

/-- C1: starting from the initial state of `main` (throttle 0, hold counter 0)
and feeding each result back as `last_throttle_cmd`, every value returned by
`step` lies between `MIN_THROTTLE` and `MAX_THROTTLE`, for every sequence of
sensor readings. -/
theorem C1_drone_saturation (ss : List Sensors) :
    ∀ t ∈ run init_state 0 ss, MIN_THROTTLE ≤ t ∧ t ≤ MAX_THROTTLE :=
  run_in_range ss init_state 0 (by decide) (by decide)

/-- Witness of C1: two ticks of full pilot throttle in acro mode on a healthy
battery; the second returned value is 100. -/
theorem C1_drone_saturation_witness :
    (100 : Int) ∈ run init_state 0 [⟨1000, 4000, 0, true⟩, ⟨1000, 4000, 0, true⟩] ∧
    (MIN_THROTTLE ≤ 100 ∧ (100 : Int) ≤ MAX_THROTTLE) :=
  ⟨by decide,
   C1_drone_saturation [⟨1000, 4000, 0, true⟩, ⟨1000, 4000, 0, true⟩] 100 (by decide)⟩

end DroneMotor

namespace HvacDamper

/-- C2: for every `last_damper_position` in [0, 100], every controller state and
every sensor reading, the position returned by `step` differs from
`last_damper_position` by at most `MAX_STEP`. -/
theorem C2_hvac_rate_limit (st : State) (s : Sensors) (last : Int)
    (h0 : DAMPER_MIN_OPEN ≤ last) (h1 : last ≤ DAMPER_MAX_OPEN) :
    |(step st s last).1 - last| ≤ MAX_STEP := by
  simp only [step, clamp, wrap32, MAX_STEP, DAMPER_MIN_OPEN, DAMPER_MAX_OPEN] at *
  generalize desired_position (confirm_fire_alarm st s) s last = d
  rw [abs_le]
  split_ifs <;> constructor <;> omega

/-- Witness of C2: a fully open damper with the system switched off moves from
100 to 85. -/
theorem C2_hvac_rate_limit_witness :
    (step ⟨0, false⟩ ⟨70, 70, false, false⟩ 100).1 = 85 ∧
    |(step ⟨0, false⟩ ⟨70, 70, false, false⟩ 100).1 - 100| ≤ MAX_STEP :=
  ⟨by decide, C2_hvac_rate_limit ⟨0, false⟩ ⟨70, 70, false, false⟩ 100 (by decide) (by decide)⟩

end HvacDamper

namespace DataCenterCooling

open cooling_mode_t

/-- C3: whatever the prior mode, `prev_state`, `cooldown_timer` and other sensor
values are, a call with `water_leak_detected` true ends in mode `LEAK_SHUTDOWN`,
returns `COMPRESSOR_OFF` and leaves `cooldown_timer` equal to `COOLDOWN_CYCLES`. -/
theorem C3_cooling_leak_priority (prev_state : Int) (st : State) (s : Sensors)
    (hleak : s.water_leak_detected = true) :
    (step_control_logic prev_state st s).2.mode = LEAK_SHUTDOWN ∧
    (step_control_logic prev_state st s).1 = COMPRESSOR_OFF ∧
    (step_control_logic prev_state st s).2.cooldown_timer = COOLDOWN_CYCLES ∧
    COOLDOWN_CYCLES = 5 := by
  simp [step_control_logic, mode_transition, hleak, COOLDOWN_CYCLES]

/-- Witness of C3: a leak reported in `COOLDOWN_RECOVERY` with the timer at 0,
where the recovery exit condition holds as well. -/
theorem C3_cooling_leak_priority_witness :
    (step_control_logic 1 ⟨COOLDOWN_RECOVERY, 0⟩ ⟨45, true, 95, true⟩).2.mode = LEAK_SHUTDOWN ∧
    (step_control_logic 1 ⟨COOLDOWN_RECOVERY, 0⟩ ⟨45, true, 95, true⟩).1 = COMPRESSOR_OFF ∧
    (step_control_logic 1 ⟨COOLDOWN_RECOVERY, 0⟩ ⟨45, true, 95, true⟩).2.cooldown_timer
      = COOLDOWN_CYCLES ∧
    COOLDOWN_CYCLES = 5 :=
  C3_cooling_leak_priority 1 ⟨COOLDOWN_RECOVERY, 0⟩ ⟨45, true, 95, true⟩ rfl

end DataCenterCooling

namespace WeldingRobot

open robot_mode_t

/-- C4, as stated, fails: entered in `EMERGENCY_STOP` with the safety zone clear
and the previous command `MOTOR_CMD_STOP`, the call passes through `SLOW_START`
and returns in mode `NORMAL` with the command `MOTOR_CMD_MOVE`. -/
theorem C4_welding_emergency_exit_counterexample :
    (step_control_logic MOTOR_CMD_STOP ⟨EMERGENCY_STOP, 0, 100⟩ false).2.mode = NORMAL ∧
    (step_control_logic MOTOR_CMD_STOP ⟨EMERGENCY_STOP, 0, 100⟩ false).1 = MOTOR_CMD_MOVE ∧
    ¬ (∀ (prev : Int) (st : State) (human : Bool), st.mode = EMERGENCY_STOP →
        (step_control_logic prev st human).2.mode = EMERGENCY_STOP ∨
        (step_control_logic prev st human).2.mode = SLOW_START) := by
  refine ⟨by decide, by decide, fun h => ?_⟩
  have h1 := h MOTOR_CMD_STOP ⟨EMERGENCY_STOP, 0, 100⟩ false rfl
  revert h1
  decide

/-- C4 (amended): for every call entered in `EMERGENCY_STOP`, the mode on return
is `EMERGENCY_STOP` when the safety zone is occupied, `SLOW_START` when it is
clear and the previous command is not `MOTOR_CMD_STOP`, and `NORMAL` (with the
command `MOTOR_CMD_MOVE`) when it is clear and the previous command is
`MOTOR_CMD_STOP`; in the first two cases the command is `MOTOR_CMD_STOP`, and
`program_path_step` is unchanged in all three. -/
theorem C4_welding_emergency_exit (prev : Int) (st : State) (human : Bool)
    (hmode : st.mode = EMERGENCY_STOP) :
    (human = true →
      (step_control_logic prev st human).2.mode = EMERGENCY_STOP ∧
      (step_control_logic prev st human).1 = MOTOR_CMD_STOP) ∧
    (human = false → prev ≠ MOTOR_CMD_STOP →
      (step_control_logic prev st human).2.mode = SLOW_START ∧
      (step_control_logic prev st human).1 = MOTOR_CMD_STOP) ∧
    (human = false → prev = MOTOR_CMD_STOP →
      (step_control_logic prev st human).2.mode = NORMAL ∧
      (step_control_logic prev st human).1 = MOTOR_CMD_MOVE) ∧
    (step_control_logic prev st human).2.program_path_step = st.program_path_step := by
  cases human <;> by_cases hp : prev = MOTOR_CMD_STOP <;>
    simp [step_control_logic, mode_transition, hmode, hp]

/-- Witness of C4 (amended): the call of the counterexample, and the same call
with the previous command `MOTOR_CMD_MOVE`. -/
theorem C4_welding_emergency_exit_witness :
    (step_control_logic MOTOR_CMD_MOVE ⟨EMERGENCY_STOP, 7, 100⟩ false).2.mode = SLOW_START ∧
    (step_control_logic MOTOR_CMD_MOVE ⟨EMERGENCY_STOP, 7, 100⟩ false).1 = MOTOR_CMD_STOP :=
  (C4_welding_emergency_exit MOTOR_CMD_MOVE ⟨EMERGENCY_STOP, 7, 100⟩ false rfl).2.1 rfl
    (by decide)

end WeldingRobot

namespace DataCenterCooling

open cooling_mode_t

theorem step_leak (p : Int) (st : State) (s : Sensors) (h : s.water_leak_detected = true) :
    step_control_logic p st s = (COMPRESSOR_OFF, ⟨LEAK_SHUTDOWN, COOLDOWN_CYCLES⟩) := by
  simp [step_control_logic, mode_transition, h]

theorem step_after_leak (p : Int) (t : Int) (s : Sensors) (h : s.water_leak_detected = false) :
    step_control_logic p ⟨LEAK_SHUTDOWN, t⟩ s
      = (COMPRESSOR_OFF, ⟨COOLDOWN_RECOVERY, if t > 0 then t - 1 else t⟩) := by
  by_cases ht : t > 0 <;> simp [step_control_logic, mode_transition, h, ht]

theorem step_cooldown (p : Int) (t : Int) (s : Sensors) (h : s.water_leak_detected = false)
    (ht : 0 < t) :
    step_control_logic p ⟨COOLDOWN_RECOVERY, t⟩ s = (COMPRESSOR_OFF, ⟨COOLDOWN_RECOVERY, t - 1⟩) := by
  have ht0 : t ≠ 0 := by omega
  simp [step_control_logic, mode_transition, h, ht0, ht]

theorem step_cooldown_done (p : Int) (s : Sensors) (h : s.water_leak_detected = false) :
    (step_control_logic p ⟨COOLDOWN_RECOVERY, 0⟩ s).2 = ⟨NORMAL_OPERATION, 0⟩ := by
  simp only [step_control_logic, mode_transition, h]
  split_ifs <;> first | rfl | simp at *

/-- C5: after a tick with `water_leak_detected` true, six ticks with it false
behave as follows, whatever the other sensor values and the `prev_state`
arguments are: each of the first `COOLDOWN_CYCLES` (5) returns `COMPRESSOR_OFF`
and ends in `COOLDOWN_RECOVERY`, and the sixth ends in `NORMAL_OPERATION`. -/
theorem C5_cooling_mandatory_cooldown (st : State) (p0 p1 p2 p3 p4 p5 p6 : Int)
    (s0 s1 s2 s3 s4 s5 s6 : Sensors)
    (h0 : s0.water_leak_detected = true)
    (h1 : s1.water_leak_detected = false) (h2 : s2.water_leak_detected = false)
    (h3 : s3.water_leak_detected = false) (h4 : s4.water_leak_detected = false)
    (h5 : s5.water_leak_detected = false) (h6 : s6.water_leak_detected = false) :
    let r0 := step_control_logic p0 st s0
    let r1 := step_control_logic p1 r0.2 s1
    let r2 := step_control_logic p2 r1.2 s2
    let r3 := step_control_logic p3 r2.2 s3
    let r4 := step_control_logic p4 r3.2 s4
    let r5 := step_control_logic p5 r4.2 s5
    let r6 := step_control_logic p6 r5.2 s6
    (r1.1 = COMPRESSOR_OFF ∧ r1.2.mode = COOLDOWN_RECOVERY) ∧
    (r2.1 = COMPRESSOR_OFF ∧ r2.2.mode = COOLDOWN_RECOVERY) ∧
    (r3.1 = COMPRESSOR_OFF ∧ r3.2.mode = COOLDOWN_RECOVERY) ∧
    (r4.1 = COMPRESSOR_OFF ∧ r4.2.mode = COOLDOWN_RECOVERY) ∧
    (r5.1 = COMPRESSOR_OFF ∧ r5.2.mode = COOLDOWN_RECOVERY) ∧
    r6.2.mode = NORMAL_OPERATION := by
  intro r0 r1 r2 r3 r4 r5 r6
  have e0 : r0 = (COMPRESSOR_OFF, ⟨LEAK_SHUTDOWN, 5⟩) := step_leak p0 st s0 h0
  have e1 : r1 = (COMPRESSOR_OFF, ⟨COOLDOWN_RECOVERY, 4⟩) := by
    show step_control_logic p1 r0.2 s1 = _
    rw [e0]; exact step_after_leak p1 5 s1 h1
  have e2 : r2 = (COMPRESSOR_OFF, ⟨COOLDOWN_RECOVERY, 3⟩) := by
    show step_control_logic p2 r1.2 s2 = _
    rw [e1]; exact step_cooldown p2 4 s2 h2 (by decide)
  have e3 : r3 = (COMPRESSOR_OFF, ⟨COOLDOWN_RECOVERY, 2⟩) := by
    show step_control_logic p3 r2.2 s3 = _
    rw [e2]; exact step_cooldown p3 3 s3 h3 (by decide)
  have e4 : r4 = (COMPRESSOR_OFF, ⟨COOLDOWN_RECOVERY, 1⟩) := by
    show step_control_logic p4 r3.2 s4 = _
    rw [e3]; exact step_cooldown p4 2 s4 h4 (by decide)
  have e5 : r5 = (COMPRESSOR_OFF, ⟨COOLDOWN_RECOVERY, 0⟩) := by
    show step_control_logic p5 r4.2 s5 = _
    rw [e4]; exact step_cooldown p5 1 s5 h5 (by decide)
  have e6 : r6.2 = ⟨NORMAL_OPERATION, 0⟩ := by
    show (step_control_logic p6 r5.2 s6).2 = _
    rw [e5]; exact step_cooldown_done p6 s6 h6
  rw [e1, e2, e3, e4, e5, e6]
  simp

/-- Witness of C5: a leak tick from normal operation followed by six dry ticks;
the fifth dry tick still ends in `COOLDOWN_RECOVERY` and the sixth ends in
`NORMAL_OPERATION`. -/
theorem C5_cooling_mandatory_cooldown_witness :
    (⟨30, true, 50, true⟩ : Sensors).water_leak_detected = true ∧
    (⟨30, false, 50, true⟩ : Sensors).water_leak_detected = false ∧
    (step_control_logic 0 (step_control_logic 0 (step_control_logic 0 (step_control_logic 0
      (step_control_logic 0 (step_control_logic 0 (step_control_logic 1 ⟨NORMAL_OPERATION, 0⟩
        ⟨30, true, 50, true⟩).2 ⟨30, false, 50, true⟩).2 ⟨30, false, 50, true⟩).2
        ⟨30, false, 50, true⟩).2 ⟨30, false, 50, true⟩).2 ⟨30, false, 50, true⟩).2
        ⟨30, false, 50, true⟩).2.mode = NORMAL_OPERATION :=
  ⟨rfl, rfl,
   (C5_cooling_mandatory_cooldown ⟨NORMAL_OPERATION, 0⟩ 1 0 0 0 0 0 0
      ⟨30, true, 50, true⟩ ⟨30, false, 50, true⟩ ⟨30, false, 50, true⟩ ⟨30, false, 50, true⟩
      ⟨30, false, 50, true⟩ ⟨30, false, 50, true⟩ ⟨30, false, 50, true⟩
      rfl rfl rfl rfl rfl rfl rfl).2.2.2.2.2⟩

end DataCenterCooling

namespace ElevatorDoor

theorem step_obstructed (st : State) (s : Sensors) (last : Int)
    (h : s.obstruction_detected = true) :
    step st s last = (DOOR_OPEN_FORCE, ⟨st.hold_open_timer, OBSTRUCTION_HOLD_CYCLES⟩) := by
  simp [step, select_force, h, DOOR_OPEN_FORCE, MAX_DOOR_FORCE]

theorem step_latched (hold t : Int) (s : Sensors) (last : Int)
    (h : s.obstruction_detected = false) (ht : 0 < t) :
    step ⟨hold, t⟩ s last = (DOOR_OPEN_FORCE, ⟨hold, t - 1⟩) := by
  simp [step, select_force, h, ht, DOOR_OPEN_FORCE, MAX_DOOR_FORCE]

theorem standard_logic_bounded (st : State) (s : Sensors) (last : Int) :
    -MAX_DOOR_FORCE ≤ (standard_logic st s last).1 ∧
    (standard_logic st s last).1 ≤ MAX_DOOR_FORCE := by
  unfold standard_logic
  split_ifs <;>
    simp only [MAX_DOOR_FORCE, DOOR_HOLD_FORCE, SOFT_CLOSE_FORCE, MAX_CLOSE_FORCE,
      DOOR_OPEN_FORCE] <;> omega

theorem step_standard (hold : Int) (s : Sensors) (last : Int)
    (h : s.obstruction_detected = false) :
    step ⟨hold, 0⟩ s last = standard_logic ⟨hold, 0⟩ s last := by
  have hsel : select_force ⟨hold, 0⟩ s last = standard_logic ⟨hold, 0⟩ s last := by
    unfold select_force
    rw [if_neg (by rw [h]; decide), if_neg (lt_irrefl (0 : Int))]
  have hb := standard_logic_bounded ⟨hold, 0⟩ s last
  unfold step
  rw [hsel]
  refine Prod.ext ?_ rfl
  show (if s.obstruction_detected = true ∧ _ then _ else _) = _
  rw [if_neg (fun hc => by rw [h] at hc; exact absurd hc.1 (by decide)),
    if_neg (not_lt.mpr hb.2), if_neg (not_lt.mpr hb.1)]

/-- C6: for any initial timers and any initial `last_door_force`, with each
returned force fed back as in `main`, an obstruction on tick 1 followed by six
ticks without obstruction makes `step` return `DOOR_OPEN_FORCE` (35) on ticks 1
to 6, whatever `command_close_door` and `special_hold_profile_active` are; after
tick 6 `obstruction_latch_timer` is 0 and `hold_open_timer` still has its initial
value, and tick 7 returns what the standard hold/close/open logic computes: the
hold force 0 if `hold_open_timer` is positive, else the soft close force -15 on a
close command (the force fed back is 35), else the open force 35. -/
theorem C6_elevator_obstruction_latch (st : State) (last : Int)
    (s1 s2 s3 s4 s5 s6 s7 : Sensors)
    (h1 : s1.obstruction_detected = true)
    (h2 : s2.obstruction_detected = false) (h3 : s3.obstruction_detected = false)
    (h4 : s4.obstruction_detected = false) (h5 : s5.obstruction_detected = false)
    (h6 : s6.obstruction_detected = false) (h7 : s7.obstruction_detected = false) :
    let r1 := step st s1 last
    let r2 := step r1.2 s2 r1.1
    let r3 := step r2.2 s3 r2.1
    let r4 := step r3.2 s4 r3.1
    let r5 := step r4.2 s5 r4.1
    let r6 := step r5.2 s6 r5.1
    let r7 := step r6.2 s7 r6.1
    (r1.1 = 35 ∧ r2.1 = 35 ∧ r3.1 = 35 ∧ r4.1 = 35 ∧ r5.1 = 35 ∧ r6.1 = 35) ∧
    r6.2.obstruction_latch_timer = 0 ∧
    r6.2.hold_open_timer = st.hold_open_timer ∧
    r7 = standard_logic r6.2 s7 r6.1 ∧
    r7.1 = (if st.hold_open_timer > 0 then DOOR_HOLD_FORCE
            else if s7.command_close_door = true then SOFT_CLOSE_FORCE
            else DOOR_OPEN_FORCE) := by
  intro r1 r2 r3 r4 r5 r6 r7
  have e1 : r1 = (35, ⟨st.hold_open_timer, 5⟩) := step_obstructed st s1 last h1
  have e2 : r2 = (35, ⟨st.hold_open_timer, 4⟩) := by
    show step r1.2 s2 r1.1 = _
    rw [e1]; exact step_latched _ 5 s2 35 h2 (by decide)
  have e3 : r3 = (35, ⟨st.hold_open_timer, 3⟩) := by
    show step r2.2 s3 r2.1 = _
    rw [e2]; exact step_latched _ 4 s3 35 h3 (by decide)
  have e4 : r4 = (35, ⟨st.hold_open_timer, 2⟩) := by
    show step r3.2 s4 r3.1 = _
    rw [e3]; exact step_latched _ 3 s4 35 h4 (by decide)
  have e5 : r5 = (35, ⟨st.hold_open_timer, 1⟩) := by
    show step r4.2 s5 r4.1 = _
    rw [e4]; exact step_latched _ 2 s5 35 h5 (by decide)
  have e6 : r6 = (35, ⟨st.hold_open_timer, 0⟩) := by
    show step r5.2 s6 r5.1 = _
    rw [e5]; exact step_latched _ 1 s6 35 h6 (by decide)
  have e7 : r7 = standard_logic r6.2 s7 r6.1 := by
    show step r6.2 s7 r6.1 = _
    rw [e6]; exact step_standard _ s7 35 h7
  refine ⟨⟨by rw [e1], by rw [e2], by rw [e3], by rw [e4], by rw [e5], by rw [e6]⟩,
    by rw [e6], by rw [e6], e7, ?_⟩
  rw [e7, e6]
  simp only [standard_logic]
  split_ifs <;> first | rfl | (simp at *)

/-- Witness of C6: an obstruction on the first tick at the lobby floor with a
close command pending on every tick; tick 6 still opens and tick 7 soft-closes. -/
theorem C6_elevator_obstruction_latch_witness :
    (step (step (step (step (step (step ⟨0, 0⟩ ⟨true, true, 1, true⟩ 0).2
      ⟨false, true, 1, true⟩ 35).2 ⟨false, true, 1, true⟩ 35).2 ⟨false, true, 1, true⟩ 35).2
      ⟨false, true, 1, true⟩ 35).2 ⟨false, true, 1, true⟩ 35).1 = 35 ∧
    (step (step (step (step (step (step ⟨0, 0⟩ ⟨true, true, 1, true⟩ 0).2
      ⟨false, true, 1, true⟩ 35).2 ⟨false, true, 1, true⟩ 35).2 ⟨false, true, 1, true⟩ 35).2
      ⟨false, true, 1, true⟩ 35).2 ⟨false, true, 1, true⟩ 35).2.obstruction_latch_timer = 0 :=
  ⟨by decide,
   (C6_elevator_obstruction_latch ⟨0, 0⟩ 0 ⟨true, true, 1, true⟩ ⟨false, true, 1, true⟩
      ⟨false, true, 1, true⟩ ⟨false, true, 1, true⟩ ⟨false, true, 1, true⟩
      ⟨false, true, 1, true⟩ ⟨false, true, 1, true⟩ rfl rfl rfl rfl rfl rfl rfl).2.1⟩

end ElevatorDoor

namespace MedicalInfusionPump

theorem rate_scan_iff (i : InfusionState) (t : ℚ) (l : List Nat) :
    rate_scan i t l = true ↔
      ∃ idx ∈ l, i.dose_history.getD idx 0 > t ∧ i.dose_history.getD (idx + 1) 0 > t ∧
        i.rate_history.getD (idx + 1) 0 > i.rate_history.getD idx 0 := by
  induction l with
  | nil => simp [rate_scan]
  | cons idx rest ih =>
    simp only [rate_scan, List.mem_cons, exists_eq_or_imp]
    split_ifs with h1 h2
    · exact ⟨fun _ => Or.inl ⟨h1.1, h1.2, h2⟩, fun _ => rfl⟩
    · rw [ih]
      constructor
      · intro h; exact Or.inr h
      · rintro (h | h)
        · exact absurd h.2.2 h2
        · exact h
    · rw [ih]
      constructor
      · intro h; exact Or.inr h
      · rintro (h | h)
        · exact absurd ⟨h.1, h.2.1⟩ h1
        · exact h

theorem run_extends_left (dose : List ℚ) (t : ℚ) (k : Nat) (hk : dose.getD k 0 > t) :
    ∃ a, a ≤ k ∧ (∀ j, a ≤ j → j < k + 1 → dose.getD j 0 > t) ∧
      (a = 0 ∨ ¬ dose.getD (a - 1) 0 > t) := by
  induction k with
  | zero =>
    refine ⟨0, le_refl _, ?_, Or.inl rfl⟩
    intro j _ hj
    have : j = 0 := by omega
    subst this; exact hk
  | succ k ih =>
    by_cases hprev : dose.getD k 0 > t
    · obtain ⟨a, hak, hall, hleft⟩ := ih hprev
      refine ⟨a, by omega, ?_, hleft⟩
      intro j haj hj
      by_cases hjk : j < k + 1
      · exact hall j haj hjk
      · have : j = k + 1 := by omega
        subst this; exact hk
    · refine ⟨k + 1, le_refl _, ?_, Or.inr hprev⟩
      intro j haj hj
      have : j = k + 1 := by omega
      subst this; exact hk

theorem run_extends_right (dose : List ℚ) (t : ℚ) (m : Nat) :
    ∀ k, k + m + 1 = HISTORY_SIZE → dose.getD k 0 > t →
    ∃ b, k ≤ b ∧ b < HISTORY_SIZE ∧ (∀ j, k ≤ j → j < b + 1 → dose.getD j 0 > t) ∧
      (b + 1 = HISTORY_SIZE ∨ ¬ dose.getD (b + 1) 0 > t) := by
  induction m with
  | zero =>
    intro k hkm hk
    refine ⟨k, le_refl _, by omega, ?_, Or.inl (by omega)⟩
    intro j h1 h2
    have : j = k := by omega
    subst this; exact hk
  | succ m ih =>
    intro k hkm hk
    by_cases hnext : dose.getD (k + 1) 0 > t
    · obtain ⟨b, hkb, hb, hall, hright⟩ := ih (k + 1) (by omega) hnext
      refine ⟨b, by omega, hb, ?_, hright⟩
      intro j h1 h2
      by_cases hjk : j = k
      · subst hjk; exact hk
      · exact hall j (by omega) h2
    · refine ⟨k, le_refl _, by omega, ?_, Or.inr hnext⟩
      intro j h1 h2
      have : j = k := by omega
      subst this; exact hk

theorem rate_scan_iff_spec (i : InfusionState) (t : ℚ) :
    rate_scan i t (List.range (HISTORY_SIZE - 1)) = true ↔ spec_segment_violation i t := by
  rw [rate_scan_iff]
  constructor
  · rintro ⟨idx, hmem, hd0, hd1, hr⟩
    have hidx : idx < HISTORY_SIZE - 1 := List.mem_range.mp hmem
    have hH : HISTORY_SIZE = 12 := rfl
    obtain ⟨a, ha, hleft, hamax⟩ := run_extends_left i.dose_history t idx hd0
    obtain ⟨b, hb1, hb2, hright, hbmax⟩ :=
      run_extends_right i.dose_history t (HISTORY_SIZE - 1 - (idx + 1)) (idx + 1) (by omega) hd1
    refine ⟨a, by omega, b, hb2, ⟨by omega, hb2, ?_, hamax, hbmax⟩, idx, by omega, ha, hr⟩
    intro j h1 h2
    by_cases hj : j < idx + 1
    · exact hleft j h1 hj
    · exact hright j (by omega) h2
  · rintro ⟨a, _, b, _, ⟨_, hb, hall, _, _⟩, k, hkb, hak, hr⟩
    have hH : HISTORY_SIZE = 12 := rfl
    exact ⟨k, List.mem_range.mpr (by omega), hall k hak (by omega), hall (k + 1) (by omega)
      (by omega), hr⟩

/-- C7: with `threshold = prescribed_limit * 0.95`, invariant 3 of
`verify_infusion_safety` reports a violation exactly when some maximal run of
consecutive history indices whose dose exceeds the threshold contains two
adjacent indices `k`, `k + 1` with `rate_history[k + 1] > rate_history[k]`; and
when every rate increase between adjacent indices has a dose at or below the
threshold on at least one side, nothing is reported. -/
theorem C7_infusion_contiguous_segments (i : InfusionState) :
    ((verify_infusion_safety i).rate_failure = true ↔
      spec_segment_violation i (i.prescribed_limit * DOSE_LIMIT_PERCENT)) ∧
    ((∀ k < HISTORY_SIZE - 1, i.rate_history.getD (k + 1) 0 > i.rate_history.getD k 0 →
        i.dose_history.getD k 0 ≤ i.prescribed_limit * DOSE_LIMIT_PERCENT ∨
        i.dose_history.getD (k + 1) 0 ≤ i.prescribed_limit * DOSE_LIMIT_PERCENT) →
      (verify_infusion_safety i).rate_failure = false) := by
  refine ⟨rate_scan_iff_spec i _, fun h => ?_⟩
  show rate_scan i _ _ = false
  rw [Bool.eq_false_iff, Ne, rate_scan_iff]
  rintro ⟨idx, hmem, hd0, hd1, hr⟩
  rcases h idx (List.mem_range.mp hmem) hr with h0 | h1
  · exact absurd hd0 (not_lt.mpr h0)
  · exact absurd hd1 (not_lt.mpr h1)

/-- Witness of C7: in `boundary_window` the rate rises only across the two
boundaries of the segment [1, 3], and invariant 3 reports nothing. -/
theorem C7_infusion_contiguous_segments_witness :
    (verify_infusion_safety boundary_window).rate_failure = false :=
  (C7_infusion_contiguous_segments boundary_window).2 (by
    intro k hk
    have hk12 : k < 11 := hk
    interval_cases k <;> norm_num [boundary_window, DOSE_LIMIT_PERCENT])

end MedicalInfusionPump

/-! ## Shift-left windows: the array loop and the specification window -/

theorem shift_left_loop_succ (a : List ℚ) (n : Nat) :
    shift_left_loop a (n + 1)
      = (shift_left_loop a n).set n ((shift_left_loop a n).getD (n + 1) 0) := by
  simp [shift_left_loop, List.range_succ]

theorem shift_left_loop_length (a : List ℚ) (n : Nat) :
    (shift_left_loop a n).length = a.length := by
  induction n with
  | zero => rfl
  | succ n ih => rw [shift_left_loop_succ, List.length_set, ih]

theorem shift_left_loop_getElem? (a : List ℚ) (n : Nat) (hn : n < a.length) (j : Nat) :
    (shift_left_loop a n)[j]? = if j < n then a[j + 1]? else a[j]? := by
  induction n generalizing j with
  | zero => simp [shift_left_loop]
  | succ n ih =>
    have hl := shift_left_loop_length a n
    have h1 : (shift_left_loop a n).getD (n + 1) 0 = a[n + 1] := by
      rw [List.getD_eq_getElem?_getD, ih (by omega) (n + 1), if_neg (by omega),
        List.getElem?_eq_getElem hn]
      rfl
    rw [shift_left_loop_succ, List.getElem?_set, hl, h1]
    by_cases hj : n = j
    · subst hj
      simp [show n < a.length by omega]
    · rw [if_neg hj, ih (by omega) j]
      by_cases h2 : j < n
      · simp [h2, show j < n + 1 by omega]
      · simp [h2, show ¬ j < n + 1 by omega]

theorem shift_push_eq (a : List ℚ) (n : Nat) (v : ℚ) (h : a.length = n + 1) :
    shift_push a n v = a.tail ++ [v] := by
  apply List.ext_getElem?
  intro j
  rw [shift_push, List.getElem?_set, shift_left_loop_length, shift_left_loop_getElem? a n (by omega),
    List.getElem?_append, List.getElem?_tail, List.length_tail]
  by_cases hj : n = j
  · subst hj; simp [h]
  · by_cases h2 : j < n
    · simp [hj, h2, h]
    · have : a.length ≤ j := by omega
      have h3 : a[j]? = none := List.getElem?_eq_none this
      simp [hj, h2, h, h3]
      omega

theorem shift_push_length (a : List ℚ) (n : Nat) (v : ℚ) :
    (shift_push a n v).length = a.length := by
  rw [shift_push, List.length_set, shift_left_loop_length]

theorem shift_push_eq_spec (a : List ℚ) (n : Nat) (v : ℚ) (h : a.length = n + 1) :
    shift_push a n v = spec_window_push a v :=
  shift_push_eq a n v h

/-- Pushing into a full window keeps the newest entries: after the pushes `vs`
the window is what is left of `w ++ vs` once `vs.length` entries are dropped. -/
theorem foldl_spec_window_push (w : List ℚ) (vs : List ℚ) (hw : w ≠ []) :
    vs.foldl spec_window_push w = (w ++ vs).drop vs.length := by
  induction vs generalizing w with
  | nil => simp
  | cons v vs ih =>
    rw [List.foldl_cons, ih _ (by simp [spec_window_push])]
    cases w with
    | nil => exact absurd rfl hw
    | cons a t => simp [spec_window_push]

theorem foldl_shift_push (n : Nat) (vs : List ℚ) :
    ∀ w : List ℚ, w.length = n + 1 →
      vs.foldl (fun w v => shift_push w n v) w = (w ++ vs).drop vs.length := by
  induction vs with
  | nil => intro w _; simp
  | cons v vs ih =>
    intro w hw
    rw [List.foldl_cons, ih _ (by rw [shift_push_length, hw]), shift_push_eq w n v hw]
    cases w with
    | nil => simp at hw
    | cons a t => simp

/-- Once at least as many values were pushed as the window holds, the window
consists of the last pushes only. -/
theorem drop_append_window (w vs : List ℚ) (h : w.length ≤ vs.length) :
    (w ++ vs).drop vs.length = vs.drop (vs.length - w.length) := by
  have h1 : vs.length = w.length + (vs.length - w.length) := by omega
  conv_lhs => rw [h1, ← List.drop_drop, List.drop_left]


namespace WarehouseRobot

theorem speed_history_foldl (vs : List ℚ) : ∀ r : RobotState,
    (vs.foldl update_speed_history r).speed_history
      = vs.foldl (fun w v => shift_push w (SPEED_HISTORY_SIZE - 1) v) r.speed_history := by
  induction vs with
  | nil => intro r; rfl
  | cons v vs ih => intro r; rw [List.foldl_cons, ih, List.foldl_cons]; rfl

/-- C8: for every initial window of `SPEED_HISTORY_SIZE` = 4 slots and every
sequence of at least 4 pushed values, after the calls of `update_speed_history`
the window holds exactly the last 4 pushed values, oldest first; after 4 pushes
it holds the 4 pushed values in push order, and after a 5th push it holds
pushes 2 to 5, so the first pushed entry is gone from every index. -/
theorem C8_warehouse_fifo (r : RobotState) (hlen : r.speed_history.length = SPEED_HISTORY_SIZE) :
    (∀ vs : List ℚ, SPEED_HISTORY_SIZE ≤ vs.length →
      (vs.foldl update_speed_history r).speed_history
        = vs.drop (vs.length - SPEED_HISTORY_SIZE)) ∧
    (∀ v1 v2 v3 v4 : ℚ,
      ([v1, v2, v3, v4].foldl update_speed_history r).speed_history = [v1, v2, v3, v4]) ∧
    (∀ v1 v2 v3 v4 v5 : ℚ,
      ([v1, v2, v3, v4, v5].foldl update_speed_history r).speed_history = [v2, v3, v4, v5] ∧
      (v1 ∉ [v2, v3, v4, v5] →
        v1 ∉ ([v1, v2, v3, v4, v5].foldl update_speed_history r).speed_history)) := by
  have key : ∀ vs : List ℚ, SPEED_HISTORY_SIZE ≤ vs.length →
      (vs.foldl update_speed_history r).speed_history
        = vs.drop (vs.length - SPEED_HISTORY_SIZE) := by
    intro vs hvs
    rw [speed_history_foldl, foldl_shift_push (SPEED_HISTORY_SIZE - 1) vs _ hlen,
      drop_append_window _ _ (by omega), hlen]
  refine ⟨key, ?_, ?_⟩
  · intro v1 v2 v3 v4
    exact key [v1, v2, v3, v4] (le_refl 4)
  · intro v1 v2 v3 v4 v5
    have h5 := key [v1, v2, v3, v4, v5] (Nat.le_succ 4)
    refine ⟨h5, fun hnot => ?_⟩
    rw [h5]
    exact hnot

/-- Witness of C8: six pushes into a window that held 9, 9, 9, 9. -/
theorem C8_warehouse_fifo_witness :
    ([1, 2, 3, 4, 5, 6].foldl update_speed_history
      ⟨0, 0, 0, 0, 0, 0, 600, 20, [9, 9, 9, 9]⟩).speed_history = [3, 4, 5, 6] :=
  (C8_warehouse_fifo ⟨0, 0, 0, 0, 0, 0, 600, 20, [9, 9, 9, 9]⟩ rfl).1 [1, 2, 3, 4, 5, 6]
    (by decide)

end WarehouseRobot

/-! ## Ring buffer of the car simulation -/

theorem ring_entry (h : List ℚ) (idx : Nat) (v : ℚ) (k : Nat) (hk : k < 9) :
    (h.set idx v).getD (((idx + 1) % 10 + k) % 10) 0 = h.getD ((idx + (k + 1)) % 10) 0 := by
  have e : ((idx + 1) % 10 + k) % 10 = (idx + (k + 1)) % 10 := by omega
  have ne : idx ≠ (idx + (k + 1)) % 10 := by omega
  rw [e, List.getD_eq_getElem?_getD, List.getD_eq_getElem?_getD, List.getElem?_set, if_neg ne]

theorem ring_newest (h : List ℚ) (idx : Nat) (v : ℚ) (hl : h.length = 10) (hi : idx < 10) :
    (h.set idx v).getD (((idx + 1) % 10 + 9) % 10) 0 = v := by
  have e : ((idx + 1) % 10 + 9) % 10 = idx := by omega
  rw [e, List.getD_eq_getElem?_getD, List.getElem?_set, if_pos rfl, if_pos (by omega)]
  rfl

theorem ring_step (h : List ℚ) (idx : Nat) (v : ℚ) (hl : h.length = 10) (hi : idx < 10) :
    (List.range 10).map (fun k => (h.set idx v).getD (((idx + 1) % 10 + k) % 10) 0)
      = spec_window_push ((List.range 10).map (fun k => h.getD ((idx + k) % 10) 0)) v := by
  have h9 := ring_newest h idx v hl hi
  have hk := fun k hk => ring_entry h idx v k hk
  simp only [List.range_succ, List.range_zero, List.nil_append, List.cons_append, List.map_cons,
    List.map_nil, spec_window_push, List.tail_cons]
  rw [h9, hk 0 (by omega), hk 1 (by omega), hk 2 (by omega), hk 3 (by omega), hk 4 (by omega),
    hk 5 (by omega), hk 6 (by omega), hk 7 (by omega), hk 8 (by omega)]

theorem ring_rotate (h : List ℚ) (idx : Nat) (hl : h.length = 10) :
    (List.range 10).map (fun k => h.getD ((idx + k) % 10) 0) = h.rotate idx := by
  apply List.ext_getElem?
  intro j
  by_cases hj : j < 10
  · rw [List.getElem?_rotate (by omega), List.getElem?_map, List.getElem?_range hj, hl,
      Option.map_some', List.getD_eq_getElem?_getD, Nat.add_comm]
    have : (j + idx) % 10 < h.length := by omega
    rw [List.getElem?_eq_getElem this]
    rfl
  · rw [List.getElem?_eq_none (by simp; omega), List.getElem?_eq_none (by simp; omega)]

theorem range_foldl_sum (h : List ℚ) (hl : h.length = 10) :
    (List.range 10).foldl (fun sum i => sum + h.getD i 0) 0 = h.sum := by
  match h, hl with
  | [a0, a1, a2, a3, a4, a5, a6, a7, a8, a9], _ =>
    simp [List.range_succ]
    ring

namespace CarSimulation

theorem update_physics_ring (c : Car) (d : Driver) (h : ring_ok c) :
    ring_ok (update_physics c d) ∧
    (update_physics c d).history_index = (c.history_index + 1) % 10 ∧
    cyclic_read (update_physics c d)
      = spec_window_push (cyclic_read c) (update_physics c d).current_speed := by
  obtain ⟨hl, h0, h1⟩ := h
  have hH : (HISTORY_SIZE : Int) = 10 := rfl
  have hidx : (update_physics c d).history_index = (c.history_index + 1) % 10 := by
    show Int.tmod (c.history_index + 1) 10 = _
    rw [Int.tmod_eq_emod (by omega) (by decide)]
  have hnat : (update_physics c d).history_index.toNat = (c.history_index.toNat + 1) % 10 := by
    rw [hidx]; omega
  refine ⟨⟨?_, ?_, ?_⟩, hidx, ?_⟩
  · show (c.speed_history.set _ _).length = _
    rw [List.length_set, hl]
  · rw [hidx]; omega
  · rw [hidx]; omega
  · show (List.range 10).map
        (fun k => (update_physics c d).speed_history.getD
          (((update_physics c d).history_index.toNat + k) % 10) 0) = _
    rw [hnat]
    exact ring_step c.speed_history c.history_index.toNat _ hl (by omega)

theorem pushed_speeds_length (ds : List Driver) : ∀ c, (pushed_speeds c ds).length = ds.length := by
  induction ds with
  | nil => intro c; rfl
  | cons d ds ih => intro c; simp [pushed_speeds, ih]

theorem drive_ring (ds : List Driver) : ∀ c, ring_ok c →
    ring_ok (drive c ds) ∧
    (drive c ds).history_index = (c.history_index + ds.length) % 10 ∧
    cyclic_read (drive c ds) = (pushed_speeds c ds).foldl spec_window_push (cyclic_read c) := by
  induction ds with
  | nil =>
    intro c h
    refine ⟨h, ?_, rfl⟩
    obtain ⟨_, h0, h1⟩ := h
    have hH : (HISTORY_SIZE : Int) = 10 := rfl
    show c.history_index = (c.history_index + 0) % 10
    omega
  | cons d ds ih =>
    intro c h
    obtain ⟨hok, hidx, hread⟩ := update_physics_ring c d h
    obtain ⟨hok2, hidx2, hread2⟩ := ih _ hok
    refine ⟨hok2, ?_, ?_⟩
    · show (drive (update_physics c d) ds).history_index = _
      rw [hidx2, hidx, List.length_cons]
      push_cast
      omega
    · show cyclic_read (drive (update_physics c d) ds) = _
      rw [hread2, hread]
      rfl

theorem init_ring_ok : ring_ok init_systems := ⟨rfl, by decide, by decide⟩

theorem init_cyclic_read : cyclic_read init_systems = List.replicate HISTORY_SIZE 0 := by
  simp [cyclic_read, init_systems, HISTORY_SIZE, List.range_succ, List.replicate]

/-- C9: after the `n` speed pushes that `update_physics` performs for any driver
inputs, starting from `init_systems`, `history_index` is `n mod HISTORY_SIZE` and
lies in [0, 10); reading `speed_history` cyclically from `history_index` gives,
oldest first, the contents of a 10-slot shift-left window that started all-zero
and received the same pushes, that is the last 10 entries of the pushed speeds
padded with zeros in front; `speed_history` is a rearrangement of that window,
and the sum formed by `check_safety_protocol` is the sum of its entries. -/
theorem C9_car_ring_buffer (ds : List Driver) :
    (drive init_systems ds).history_index = ((ds.length % HISTORY_SIZE : Nat) : Int) ∧
    (0 ≤ (drive init_systems ds).history_index ∧
      (drive init_systems ds).history_index < HISTORY_SIZE) ∧
    cyclic_read (drive init_systems ds)
      = (pushed_speeds init_systems ds).foldl spec_window_push (List.replicate HISTORY_SIZE 0) ∧
    cyclic_read (drive init_systems ds)
      = (List.replicate HISTORY_SIZE 0 ++ pushed_speeds init_systems ds).drop ds.length ∧
    List.Perm (drive init_systems ds).speed_history (cyclic_read (drive init_systems ds)) ∧
    history_sum (drive init_systems ds)
      = ((List.replicate HISTORY_SIZE 0 ++ pushed_speeds init_systems ds).drop ds.length).sum := by
  obtain ⟨⟨hl, h0, h1⟩, hidx, hread⟩ := drive_ring ds init_systems init_ring_ok
  rw [init_cyclic_read] at hread
  have hwin : cyclic_read (drive init_systems ds)
      = (List.replicate HISTORY_SIZE 0 ++ pushed_speeds init_systems ds).drop ds.length := by
    rw [hread, foldl_spec_window_push _ _ (by decide), pushed_speeds_length]
  have hrot : cyclic_read (drive init_systems ds)
      = (drive init_systems ds).speed_history.rotate (drive init_systems ds).history_index.toNat :=
    ring_rotate _ _ hl
  have hperm : List.Perm (drive init_systems ds).speed_history
      (cyclic_read (drive init_systems ds)) := by
    rw [hrot]; exact (List.rotate_perm _ _).symm
  refine ⟨?_, ⟨h0, h1⟩, hread, hwin, hperm, ?_⟩
  · rw [hidx]
    show (0 + (ds.length : Int)) % 10 = ((ds.length % 10 : Nat) : Int)
    omega
  · rw [← hwin, ← hperm.sum_eq]
    exact range_foldl_sum _ hl

end CarSimulation

namespace ChemicalReactor

theorem monitor_cycle_window (s : SafetyController) (r : ReactorState) :
    (monitor_cycle s r).temp_window = shift_push s.temp_window (WINDOW_SIZE - 1) r.internal_temp := by
  show SafetyController.temp_window (if (monitor_safety_invariants r s).safe = true then _ else _)
    = _
  by_cases hs : (monitor_safety_invariants r s).safe = true
  · rw [if_pos hs]; rfl
  · rw [if_neg hs]; rfl

theorem monitor_cycle_pump (s : SafetyController) (r : ReactorState) :
    (monitor_cycle s r).pump_max_duration
      = if r.cooling_pump_pwr = 100 then wrap32 (s.pump_max_duration + 1) else 0 := by
  show SafetyController.pump_max_duration
    (if (monitor_safety_invariants r s).safe = true then _ else _) = _
  by_cases hs : (monitor_safety_invariants r s).safe = true
  · rw [if_pos hs]; rfl
  · rw [if_neg hs]; rfl

theorem monitor_run_window (rs : List ReactorState) : ∀ s : SafetyController,
    (monitor_run s rs).temp_window
      = (rs.map (fun r => r.internal_temp)).foldl
          (fun w v => shift_push w (WINDOW_SIZE - 1) v) s.temp_window := by
  induction rs with
  | nil => intro s; rfl
  | cons r rs ih =>
    intro s
    show (monitor_run (monitor_cycle s r) rs).temp_window = _
    rw [ih, monitor_cycle_window]
    rfl

theorem monitor_run_pump (rs : List ReactorState) : ∀ (s : SafetyController) (b : Int),
    -2147483648 ≤ s.pump_max_duration → s.pump_max_duration ≤ b → 0 ≤ b →
    -2147483648 ≤ (monitor_run s rs).pump_max_duration ∧
      (monitor_run s rs).pump_max_duration ≤ b + rs.length := by
  induction rs with
  | nil => intro s b h0 h1 _; exact ⟨h0, by simpa [monitor_run] using h1⟩
  | cons r rs ih =>
    intro s b h0 h1 hb
    have hp := monitor_cycle_pump s r
    have hstep : -2147483648 ≤ (monitor_cycle s r).pump_max_duration ∧
        (monitor_cycle s r).pump_max_duration ≤ b + 1 := by
      rw [hp]
      unfold wrap32
      split_ifs <;> omega
    obtain ⟨g0, g1⟩ := ih (monitor_cycle s r) (b + 1) hstep.1 hstep.2 (by omega)
    refine ⟨g0, ?_⟩
    show (monitor_run (monitor_cycle s r) rs).pump_max_duration ≤ _
    rw [List.length_cons]
    push_cast
    omega

/-- C10: in a run that starts from `init_systems`, `monitor_safety_invariants`
does not report thermal runaway (invariant 3) in any of its first
`WINDOW_SIZE - 1` = 4 calls, whatever the reactor states are; and whenever it
reports it, at least `WINDOW_SIZE` calls were made and `temp_window` holds
exactly the temperatures of the last 5 calls, oldest first. -/
theorem C10_reactor_partial_window (rs : List ReactorState) (r : ReactorState) :
    (rs.length < WINDOW_SIZE - 1 →
      (monitor_safety_invariants r (monitor_run init_systems.2 rs)).thermal_runaway = false) ∧
    ((monitor_safety_invariants r (monitor_run init_systems.2 rs)).thermal_runaway = true →
      WINDOW_SIZE ≤ rs.length + 1 ∧
      (monitor_safety_invariants r (monitor_run init_systems.2 rs)).controller.temp_window
        = ((rs ++ [r]).drop (rs.length + 1 - WINDOW_SIZE)).map (fun x => x.internal_temp)) := by
  have hW : WINDOW_SIZE = 5 := rfl
  obtain ⟨p0, p1⟩ := monitor_run_pump rs init_systems.2 0 (by decide) (by decide) (le_refl 0)
  have hcount : (monitor_safety_invariants r (monitor_run init_systems.2 rs)).thermal_runaway = true
      → WINDOW_SIZE ≤ rs.length + 1 := by
    intro h
    by_contra hcon
    have hp : ¬ ((if r.cooling_pump_pwr = 100
        then wrap32 ((monitor_run init_systems.2 rs).pump_max_duration + 1) else 0)
          ≥ (WINDOW_SIZE : Int)) := by
      unfold wrap32
      rw [hW] at hcon ⊢
      push_cast
      split_ifs <;> omega
    have hno : (monitor_safety_invariants r (monitor_run init_systems.2 rs)).thermal_runaway
        = false := by
      show (if _ ≥ _ then _ else false) = false
      rw [if_neg hp]
    rw [hno] at h
    exact Bool.false_ne_true h
  refine ⟨fun hlt => ?_, fun h => ⟨hcount h, ?_⟩⟩
  · rw [Bool.eq_false_iff]
    intro h
    have := hcount h
    omega
  · have hwin : (monitor_safety_invariants r (monitor_run init_systems.2 rs)).controller.temp_window
        = shift_push (monitor_run init_systems.2 rs).temp_window (WINDOW_SIZE - 1)
            r.internal_temp := rfl
    have hfold : shift_push (monitor_run init_systems.2 rs).temp_window (WINDOW_SIZE - 1)
          r.internal_temp
        = ((rs ++ [r]).map (fun x => x.internal_temp)).foldl
            (fun w v => shift_push w (WINDOW_SIZE - 1) v) init_systems.2.temp_window := by
      rw [monitor_run_window, List.map_append, List.foldl_append]
      rfl
    have hlen : ((rs ++ [r]).map (fun x => x.internal_temp)).length = rs.length + 1 := by simp
    have h5 := hcount h
    rw [hwin, hfold, foldl_shift_push (WINDOW_SIZE - 1) _ init_systems.2.temp_window rfl,
      drop_append_window _ _ (by rw [hlen]; exact h5), hlen, List.map_drop]
    rfl

/-- Witness of C10: the first call after `init_systems` with the pump at 100
reports no runaway; the fifth call of a run with the pump at 100 and the
temperatures 301 to 305 reports it, and the window then holds those five. -/
theorem C10_reactor_partial_window_witness :
    (monitor_safety_invariants ⟨301, 300, 100, 50, 0, 100⟩
      (monitor_run init_systems.2 [])).thermal_runaway = false ∧
    (monitor_safety_invariants ⟨305, 304, 100, 50, 0, 100⟩
      (monitor_run init_systems.2 [⟨301, 300, 100, 50, 0, 100⟩, ⟨302, 301, 100, 50, 0, 100⟩,
        ⟨303, 302, 100, 50, 0, 100⟩, ⟨304, 303, 100, 50, 0, 100⟩])).controller.temp_window
      = [301, 302, 303, 304, 305] :=
  ⟨(C10_reactor_partial_window [] ⟨301, 300, 100, 50, 0, 100⟩).1 (by decide),
   ((C10_reactor_partial_window [⟨301, 300, 100, 50, 0, 100⟩, ⟨302, 301, 100, 50, 0, 100⟩,
        ⟨303, 302, 100, 50, 0, 100⟩, ⟨304, 303, 100, 50, 0, 100⟩]
      ⟨305, 304, 100, 50, 0, 100⟩).2 (by decide)).2⟩

end ChemicalReactor

namespace HvacDamper

theorem run_signal_state (ss : List Sensors) : ∀ (st : State) (pos : Int),
    (∀ s ∈ ss, s.fire_alarm_signal = true) →
    (run st pos ss).2 = ss.foldl confirm_fire_alarm st := by
  induction ss with
  | nil => intro st pos _; rfl
  | cons s rest ih =>
    intro st pos h
    show (run (step st s pos).2 (step st s pos).1 rest).2 = _
    rw [ih _ _ (fun x hx => h x (List.mem_cons_of_mem _ hx))]
    rfl

theorem confirmed_stays (ss : List Sensors) : ∀ (c : Int),
    (∀ s ∈ ss, s.fire_alarm_signal = true) →
    (ss.foldl confirm_fire_alarm ⟨c, true⟩).fire_alarm_confirmed = true := by
  induction ss with
  | nil => intro c _; rfl
  | cons s rest ih =>
    intro c h
    have hs : s.fire_alarm_signal = true := h s (List.mem_cons_self _ _)
    have hstep : confirm_fire_alarm ⟨c, true⟩ s = ⟨wrap32 (c + 1), true⟩ := by
      simp [confirm_fire_alarm, hs]
    rw [List.foldl_cons, hstep]
    exact ih _ (fun x hx => h x (List.mem_cons_of_mem _ hx))

theorem confirm_signal (c : Int) (s : Sensors) (hs : s.fire_alarm_signal = true)
    (h0 : 0 ≤ c) (h2 : c < 3) :
    confirm_fire_alarm ⟨c, false⟩ s = ⟨c + 1, decide (c = 2)⟩ := by
  have hw : wrap32 (c + 1) = c + 1 := by unfold wrap32; omega
  simp only [confirm_fire_alarm, hs, if_true, hw, FIRE_PREALARM_COUNT]
  by_cases hc : c = 2
  · subst hc; rfl
  · have : ¬ (c + 1 ≥ 3) := by omega
    simp [this, hc]

/-- C11: starting from `fire_alarm_counter = 0` and `fire_alarm_confirmed = false`,
after a run of consecutive calls of `step` that all see `fire_alarm_signal` true,
`fire_alarm_confirmed` is true exactly when the run has at least
`FIRE_PREALARM_COUNT` = 3 calls; and any call with `fire_alarm_signal` false
leaves the counter at 0 and `fire_alarm_confirmed` false, whatever the state
before it was. -/
theorem C11_hvac_fire_confirmation :
    (∀ (ss : List Sensors) (pos : Int), (∀ s ∈ ss, s.fire_alarm_signal = true) →
      ((run init_state pos ss).2.fire_alarm_confirmed = true ↔ 3 ≤ ss.length)) ∧
    (∀ (st : State) (s : Sensors) (pos : Int), s.fire_alarm_signal = false →
      (step st s pos).2 = ⟨0, false⟩) ∧
    FIRE_PREALARM_COUNT = 3 := by
  refine ⟨?_, ?_, rfl⟩
  · intro ss pos h
    rw [run_signal_state ss _ _ h]
    match ss, h with
    | [], _ => simp [init_state]
    | [s1], h =>
      have e1 : confirm_fire_alarm ⟨0, false⟩ s1 = ⟨1, false⟩ :=
        confirm_signal 0 s1 (h s1 (by simp)) (by decide) (by decide)
      simp [init_state, e1]
    | [s1, s2], h =>
      have e1 : confirm_fire_alarm ⟨0, false⟩ s1 = ⟨1, false⟩ :=
        confirm_signal 0 s1 (h s1 (by simp)) (by decide) (by decide)
      have e2 : confirm_fire_alarm ⟨1, false⟩ s2 = ⟨2, false⟩ :=
        confirm_signal 1 s2 (h s2 (by simp)) (by decide) (by decide)
      simp [init_state, e1, e2]
    | s1 :: s2 :: s3 :: rest, h =>
      have e1 : confirm_fire_alarm ⟨0, false⟩ s1 = ⟨1, false⟩ :=
        confirm_signal 0 s1 (h s1 (by simp)) (by decide) (by decide)
      have e2 : confirm_fire_alarm ⟨1, false⟩ s2 = ⟨2, false⟩ :=
        confirm_signal 1 s2 (h s2 (by simp)) (by decide) (by decide)
      have e3 : confirm_fire_alarm ⟨2, false⟩ s3 = ⟨3, true⟩ :=
        confirm_signal 2 s3 (h s3 (by simp)) (by decide) (by decide)
      have hrest : ∀ s ∈ rest, s.fire_alarm_signal = true :=
        fun x hx => h x (by simp [hx])
      have := confirmed_stays rest 3 hrest
      simp only [List.foldl_cons, init_state, e1, e2, e3, List.length_cons]
      norm_num
      exact this
  · intro st s pos hs
    show confirm_fire_alarm st s = _
    simp [confirm_fire_alarm, hs]

/-- Witness of C11: two signalled ticks do not confirm, the third does, and a
clear tick after two signalled ones resets the state. -/
theorem C11_hvac_fire_confirmation_witness :
    ¬ (run init_state 40 [⟨70, 70, true, true⟩, ⟨70, 70, true, true⟩]).2.fire_alarm_confirmed
        = true ∧
    (run init_state 40 [⟨70, 70, true, true⟩, ⟨70, 70, true, true⟩,
      ⟨70, 70, true, true⟩]).2.fire_alarm_confirmed = true ∧
    (step ⟨2, false⟩ ⟨70, 70, false, true⟩ 40).2 = ⟨0, false⟩ :=
  ⟨fun h => absurd ((C11_hvac_fire_confirmation.1
      [⟨70, 70, true, true⟩, ⟨70, 70, true, true⟩] 40 (by decide)).mp h) (by decide),
   (C11_hvac_fire_confirmation.1
      [⟨70, 70, true, true⟩, ⟨70, 70, true, true⟩, ⟨70, 70, true, true⟩] 40
      (by decide)).mpr (by decide),
   C11_hvac_fire_confirmation.2.1 ⟨2, false⟩ ⟨70, 70, false, true⟩ 40 rfl⟩

end HvacDamper

namespace HvacDamper

/-- C20 fails on the code: with the damper fully open, the third consecutive
fire signal confirms the alarm, the desired position becomes
`DAMPER_FIRE_SAFE_POSITION`, and the rate limiter lets `step` return 85, not 0;
the override reaches 0 in the same call only from positions up to `MAX_STEP`. -/
theorem C20_hvac_fire_override_rate_limited :
    (step ⟨2, false⟩ ⟨70, 70, true, true⟩ 100).2.fire_alarm_confirmed = true ∧
    desired_position (step ⟨2, false⟩ ⟨70, 70, true, true⟩ 100).2 ⟨70, 70, true, true⟩ 100
      = DAMPER_FIRE_SAFE_POSITION ∧
    (step ⟨2, false⟩ ⟨70, 70, true, true⟩ 100).1 = 85 ∧
    (step ⟨2, false⟩ ⟨70, 70, true, true⟩ 100).1 ≠ DAMPER_FIRE_SAFE_POSITION ∧
    (step ⟨2, false⟩ ⟨70, 70, true, true⟩ 15).1 = DAMPER_FIRE_SAFE_POSITION := by
  refine ⟨by decide, by decide, by decide, by decide, by decide⟩

end HvacDamper

namespace DroneMotor

/-- C18, as stated for all integers, fails at the top of the `int` range: for
`last = desired = 2147483647` the sum `last + MAX_THROTTLE_STEP` wraps around, the
first test of `apply_rate_limit` succeeds and the function returns -2147483599,
while the reference definition gives `last`. -/
theorem C18_rate_limit_reference_counterexample :
    apply_rate_limit 2147483647 2147483647 = -2147483599 ∧
    spec_rate_limit 2147483647 2147483647 = 2147483647 ∧
    ¬ (∀ last desired : Int, apply_rate_limit last desired = spec_rate_limit last desired) := by
  refine ⟨by decide, by decide, fun h => ?_⟩
  have h1 := h 2147483647 2147483647
  revert h1
  decide

/-- C18 (amended): for every `last` such that `last - MAX_THROTTLE_STEP` and
`last + MAX_THROTTLE_STEP` are representable as 32-bit integers, and every
`desired`, `apply_rate_limit last desired` equals
`last + clamp (desired - last) (-MAX_THROTTLE_STEP) MAX_THROTTLE_STEP` with
`MAX_THROTTLE_STEP` = 50; the result differs from `last` by at most 50 and equals
`desired` whenever `|desired - last| ≤ 50`. -/
theorem C18_rate_limit_reference (last desired : Int)
    (hlo : -2147483648 ≤ last - MAX_THROTTLE_STEP)
    (hhi : last + MAX_THROTTLE_STEP ≤ 2147483647) :
    apply_rate_limit last desired = spec_rate_limit last desired ∧
    |apply_rate_limit last desired - last| ≤ 50 ∧
    (|desired - last| ≤ 50 → apply_rate_limit last desired = desired) ∧
    MAX_THROTTLE_STEP = 50 := by
  simp only [MAX_THROTTLE_STEP] at hlo hhi
  have h1 : wrap32 (last + 50) = last + 50 := by unfold wrap32; omega
  have h2 : wrap32 (last - 50) = last - 50 := by unfold wrap32; omega
  simp only [apply_rate_limit, spec_rate_limit, clamp, MAX_THROTTLE_STEP, h1, h2, abs_le]
  refine ⟨?_, ?_, ?_, trivial⟩
  · split_ifs <;> omega
  · split_ifs <;> constructor <;> omega
  · intro h
    split_ifs <;> omega

/-- Witness of C18 (amended): from 100 toward 1000 the limiter returns 150. -/
theorem C18_rate_limit_reference_witness :
    apply_rate_limit 100 1000 = spec_rate_limit 100 1000 ∧ apply_rate_limit 100 1000 = 150 :=
  ⟨(C18_rate_limit_reference 100 1000 (by decide) (by decide)).1, by decide⟩

end DroneMotor

namespace ChemicalReactor

/-- C15: `monitor_safety_invariants` leaves every field of the reactor state
unchanged and leaves `total_violations` unchanged; the safety controller after
the call is the one before it with only `temp_window`, `pump_max_duration` and
`system_halted` replaced. -/
theorem C15_reactor_monitor_frame (r : ReactorState) (s : SafetyController) :
    (monitor_safety_invariants r s).reactor = r ∧
    (monitor_safety_invariants r s).reactor.internal_temp = r.internal_temp ∧
    (monitor_safety_invariants r s).reactor.prev_temp = r.prev_temp ∧
    (monitor_safety_invariants r s).reactor.internal_pressure = r.internal_pressure ∧
    (monitor_safety_invariants r s).reactor.reactant_conc = r.reactant_conc ∧
    (monitor_safety_invariants r s).reactor.emergency_vent = r.emergency_vent ∧
    (monitor_safety_invariants r s).reactor.cooling_pump_pwr = r.cooling_pump_pwr ∧
    (monitor_safety_invariants r s).controller.total_violations = s.total_violations ∧
    (monitor_safety_invariants r s).controller
      = { s with
          temp_window := (monitor_safety_invariants r s).controller.temp_window
          pump_max_duration := (monitor_safety_invariants r s).controller.pump_max_duration
          system_halted := (monitor_safety_invariants r s).controller.system_halted } :=
  ⟨rfl, rfl, rfl, rfl, rfl, rfl, rfl, rfl, rfl⟩

/-- C16: `monitor_safety_invariants` turns `system_halted` from false to true
exactly when `internal_temp > 550` or `internal_pressure > 250` at the call, and
it returns false in that case; it never resets `system_halted` to false; and
when neither threshold is crossed `system_halted` keeps its value, whatever
invariants 1 to 3 report. -/
theorem C16_reactor_halt_threshold (r : ReactorState) (s : SafetyController) :
    (s.system_halted = false →
      ((monitor_safety_invariants r s).controller.system_halted = true ↔
        (r.internal_temp > 550 ∨ r.internal_pressure > 250))) ∧
    ((r.internal_temp > 550 ∨ r.internal_pressure > 250) →
      (monitor_safety_invariants r s).safe = false ∧
      (monitor_safety_invariants r s).controller.system_halted = true) ∧
    (s.system_halted = true →
      (monitor_safety_invariants r s).controller.system_halted = true) ∧
    (¬ (r.internal_temp > 550 ∨ r.internal_pressure > 250) →
      (monitor_safety_invariants r s).controller.system_halted = s.system_halted) := by
  have hh : (monitor_safety_invariants r s).controller.system_halted
      = if decide (r.internal_temp > 550 ∨ r.internal_pressure > 250) = true then true
        else s.system_halted := rfl
  have hs : (monitor_safety_invariants r s).safe
      = !((monitor_safety_invariants r s).pressure_failure
          || (monitor_safety_invariants r s).ramp_failure
          || (monitor_safety_invariants r s).thermal_runaway
          || decide (r.internal_temp > 550 ∨ r.internal_pressure > 250)) := rfl
  rw [hh, hs]
  by_cases hf : r.internal_temp > 550 ∨ r.internal_pressure > 250
  · simp [hf]
  · simp [hf]

/-- Witness of C16: a call at 560 K halts a running system and returns false;
a vent failure at 200 PSI alone (invariant 1) does not halt it. -/
theorem C16_reactor_halt_threshold_witness :
    (monitor_safety_invariants ⟨560, 559, 100, 50, 0, 100⟩ init_systems.2).controller.system_halted
      = true ∧
    (monitor_safety_invariants ⟨560, 559, 100, 50, 0, 100⟩ init_systems.2).safe = false ∧
    (monitor_safety_invariants ⟨300, 300, 200, 50, 0, 100⟩ init_systems.2).pressure_failure
      = true ∧
    (monitor_safety_invariants ⟨300, 300, 200, 50, 0, 100⟩ init_systems.2).controller.system_halted
      = false :=
  ⟨((C16_reactor_halt_threshold ⟨560, 559, 100, 50, 0, 100⟩ init_systems.2).1 rfl).mpr
      (Or.inl (by decide)),
   ((C16_reactor_halt_threshold ⟨560, 559, 100, 50, 0, 100⟩ init_systems.2).2.1
      (Or.inl (by decide))).1,
   by decide,
   (C16_reactor_halt_threshold ⟨300, 300, 200, 50, 0, 100⟩ init_systems.2).2.2.2
      (by decide)⟩

end ChemicalReactor

namespace Furnace

/-- C19: for every controller state and every sensor input, if
`step_control_logic` returns `VALVE_OPEN` then, on the state it leaves behind,
`thermostat_calls_for_heat` is true, `lockout_active` is false,
`ignition_attempts` is at most `MAX_IGNITION_ATTEMPTS` (3), and the flame is
detected or `time_since_valve_open` is at most `IGNITION_TIMEOUT` (5). -/
theorem C19_furnace_valve_open_safe (current_valve_state : Int) (st : State) (s : Sensors)
    (hopen : (step_control_logic current_valve_state st s).1 = VALVE_OPEN) :
    s.thermostat_calls_for_heat = true ∧
    (step_control_logic current_valve_state st s).2.lockout_active = false ∧
    (step_control_logic current_valve_state st s).2.ignition_attempts ≤ 3 ∧
    (s.flame_detected = true ∨
      (step_control_logic current_valve_state st s).2.time_since_valve_open ≤ 5) := by
  unfold step_control_logic at hopen ⊢
  by_cases hl : st.lockout_active = true
  · rw [if_pos hl] at hopen
    exact absurd (show VALVE_CLOSED = VALVE_OPEN from hopen) (by decide)
  · rw [if_neg hl] at hopen ⊢
    by_cases hok : safety_ok (valve_logic current_valve_state st s).1
        (valve_logic current_valve_state st s).2 s
    · simp only [hok, if_true] at hopen ⊢
      rcases hok with hc | ⟨h1, h2, h3, h4⟩
      · rw [hc] at hopen
        exact absurd hopen (by decide)
      · exact ⟨h1, h2, h3, h4⟩
    · simp only [hok, if_false] at hopen
      exact absurd (show VALVE_CLOSED = VALVE_OPEN from hopen) (by decide)

/-- Witness of C19: a closed valve after a complete pre-purge opens on a heat
call. -/
theorem C19_furnace_valve_open_safe_witness :
    (step_control_logic VALVE_CLOSED ⟨9, 1, false, 3⟩ ⟨true, false⟩).1 = VALVE_OPEN ∧
    (step_control_logic VALVE_CLOSED ⟨9, 1, false, 3⟩ ⟨true, false⟩).2.lockout_active = false ∧
    (step_control_logic VALVE_CLOSED ⟨9, 1, false, 3⟩ ⟨true, false⟩).2.time_since_valve_open
      = 0 :=
  ⟨by decide,
   (C19_furnace_valve_open_safe VALVE_CLOSED ⟨9, 1, false, 3⟩ ⟨true, false⟩ (by decide)).2.1,
   by decide⟩

end Furnace

namespace DamGate

open dam_mode_t

/-- C17, as stated, fails: in recovery with the gate at 55 and a demand of 50 the
call closes the gate by `MAX_GATE_STEP` to 45, below the demand, and stays in
`RECOVERY_MODE`. -/
theorem C17_dam_recovery_ramp_counterexample :
    step_control_logic 55 RECOVERY_MODE ⟨false, 80, 50⟩ = (45, RECOVERY_MODE) ∧
    ¬ (∀ (prev : Int) (mode : dam_mode_t) (s : Sensors),
        0 ≤ prev → prev ≤ 100 → 0 ≤ s.seasonal_water_demand → s.seasonal_water_demand ≤ 100 →
        (step_control_logic prev mode s).2 = RECOVERY_MODE →
        s.seasonal_water_demand ≤ (step_control_logic prev mode s).1 ∧
        (step_control_logic prev mode s).1 ≤ prev) := by
  refine ⟨by decide, fun h => ?_⟩
  have h1 := h 55 RECOVERY_MODE ⟨false, 80, 50⟩ (by decide) (by decide) (by decide) (by decide)
    (by decide)
  revert h1
  decide

/-- C17 (amended): for every `prev_gate_opening` and `seasonal_water_demand` in
[0, 100], every call of `step_control_logic` that returns with mode
`RECOVERY_MODE` had `prev_gate_opening` above the demand and returns
`prev_gate_opening - MAX_GATE_STEP`, or 0 if that is negative: an opening below
`prev_gate_opening` and above `seasonal_water_demand - MAX_GATE_STEP`, which lies
between the demand and `prev_gate_opening` whenever the two are at least
`MAX_GATE_STEP` apart. -/
theorem C17_dam_recovery_ramp (prev : Int) (mode : dam_mode_t) (s : Sensors)
    (hp0 : 0 ≤ prev) (hp1 : prev ≤ 100)
    (hd0 : 0 ≤ s.seasonal_water_demand) (hd1 : s.seasonal_water_demand ≤ 100)
    (hrec : (step_control_logic prev mode s).2 = RECOVERY_MODE) :
    s.seasonal_water_demand < prev ∧
    (step_control_logic prev mode s).1 = max (prev - MAX_GATE_STEP) 0 ∧
    (step_control_logic prev mode s).1 < prev ∧
    s.seasonal_water_demand - MAX_GATE_STEP < (step_control_logic prev mode s).1 ∧
    (prev - s.seasonal_water_demand ≥ MAX_GATE_STEP →
      s.seasonal_water_demand ≤ (step_control_logic prev mode s).1 ∧
      (step_control_logic prev mode s).1 ≤ prev) := by
  have hw : wrap32 (prev - 10) = prev - 10 := by unfold wrap32; omega
  simp only [step_control_logic, MAX_GATE_STEP, hw] at hrec ⊢
  by_cases hm : mode_transition mode s = FLOOD_EMERGENCY
  · simp [hm] at hrec
  · by_cases hr : mode_transition mode s = RECOVERY_MODE
    · by_cases hgt : prev > s.seasonal_water_demand
      · simp only [hr, if_pos hgt, if_true, if_false, reduceCtorEq] at hrec ⊢
        simp only [clamp, MIN_GATE_OPENING, MAX_GATE_OPENING]
        refine ⟨hgt, ?_, ?_, ?_, ?_⟩
        · rw [max_def]; split_ifs <;> omega
        · split_ifs <;> omega
        · split_ifs <;> omega
        · intro h; split_ifs <;> constructor <;> omega
      · simp [hr, hgt] at hrec
    · simp only [hm, hr, if_false] at hrec
      split_ifs at hrec <;> exact absurd hrec hr

/-- Witness of C17 (amended): the call of the counterexample, and a call from
80 toward the same demand. -/
theorem C17_dam_recovery_ramp_witness :
    (step_control_logic 55 RECOVERY_MODE ⟨false, 80, 50⟩).1 = max (55 - MAX_GATE_STEP) 0 ∧
    (50 ≤ (step_control_logic 80 FLOOD_EMERGENCY ⟨false, 80, 50⟩).1 ∧
      (step_control_logic 80 FLOOD_EMERGENCY ⟨false, 80, 50⟩).1 ≤ 80) :=
  ⟨(C17_dam_recovery_ramp 55 RECOVERY_MODE ⟨false, 80, 50⟩ (by decide) (by decide) (by decide)
      (by decide) (by decide)).2.1,
   (C17_dam_recovery_ramp 80 FLOOD_EMERGENCY ⟨false, 80, 50⟩ (by decide) (by decide) (by decide)
      (by decide) (by decide)).2.2.2.2 (by decide)⟩

end DamGate

namespace InfusionPump

theorem high_rate_ge (s : Sensors) (new_rate : Int) (h : is_high_rate s new_rate) :
    90 ≤ new_rate := by
  unfold is_high_rate profile_max_rate HIGH_RATE_THRESHOLD_PERCENT at h
  have h90 : ((90 : Int) : ℚ) ≤ (new_rate : ℚ) := by
    split_ifs at h <;>
      simp only [DRUG_PROFILE_A_MAX_RATE, DRUG_PROFILE_B_MAX_RATE] at h <;>
      push_cast at h ⊢ <;> linarith
  exact_mod_cast h90

theorem step_high_rate (last c : Int) (s : Sensors)
    (hair : s.air_in_line_detected = false) (hen : s.pump_enabled = true)
    (hhigh : is_high_rate s (ramp_rate s last)) (h0 : 0 ≤ c) (h5 : c ≤ 5) :
    (c < 5 → (step last c s).2 = c + 1 ∧ 0 < (step last c s).1 ∧
      (step last c s).1 = min (ramp_rate s last) MAX_PUMP_RATE_ML_HR) ∧
    (c = 5 → step last c s = (0, 0)) := by
  have h90 := high_rate_ge s _ hhigh
  have hw : wrap32 (c + 1) = c + 1 := by unfold wrap32; omega
  have hsel : select_rate last c s
      = if c + 1 > HIGH_RATE_CYCLES_LIMIT then (0, 0) else (ramp_rate s last, c + 1) := by
    simp only [select_rate, hair, hen, hhigh, hw, if_true, Bool.false_eq_true, if_false]
  constructor
  · intro hc
    have hsel2 : select_rate last c s = (ramp_rate s last, c + 1) := by
      rw [hsel, if_neg (by simp only [HIGH_RATE_CYCLES_LIMIT]; omega)]
    simp only [step, hsel2, MAX_PUMP_RATE_ML_HR]
    refine ⟨trivial, ?_, ?_⟩
    · split_ifs <;> omega
    · rw [min_def]; split_ifs <;> omega
  · intro hc
    have hsel2 : select_rate last c s = (0, 0) := by
      rw [hsel, if_pos (by simp only [HIGH_RATE_CYCLES_LIMIT]; omega)]
    simp only [step, hsel2]
    rfl

theorem run_high_rate (ss : List Sensors) : ∀ (last : Int) (k : Nat), k ≤ 5 →
    sustained_high_rate last k ss →
    ∀ (n : Nat) (r : Int × Int), (run last k ss)[n]? = some r →
      r.2 = ((k + n + 1) % 6 : Nat) ∧ (r.1 = 0 ↔ (k + n + 1) % 6 = 0) := by
  induction ss with
  | nil => intro last k _ _ n r h; simp [run] at h
  | cons s rest ih =>
    intro last k hk hs n r hr
    obtain ⟨hair, hen, hhigh, hrest⟩ := hs
    obtain ⟨hlt, heq⟩ := step_high_rate last k s hair hen hhigh (by omega) (by omega)
    by_cases hk5 : k = 5
    · have hstep : step last (k : Int) s = (0, 0) := heq (by omega)
      cases n with
      | zero =>
        simp only [run, List.getElem?_cons_zero, Option.some.injEq] at hr
        rw [← hr, hstep]
        subst hk5
        simp
      | succ m =>
        simp only [run, List.getElem?_cons_succ] at hr
        rw [hstep] at hr hrest
        have := ih 0 0 (by omega) hrest m r hr
        subst hk5
        have e : (5 + (m + 1) + 1) % 6 = (0 + m + 1) % 6 := by omega
        rw [e]
        exact this
    · obtain ⟨hc, hpos, _⟩ := hlt (by omega)
      cases n with
      | zero =>
        simp only [run, List.getElem?_cons_zero, Option.some.injEq] at hr
        rw [← hr, hc]
        have e : (k + 0 + 1) % 6 = k + 1 := by omega
        rw [e]
        refine ⟨by push_cast; rfl, ?_⟩
        constructor
        · intro h0; omega
        · intro h0; omega
      | succ m =>
        simp only [run, List.getElem?_cons_succ] at hr
        rw [hc] at hr hrest
        have := ih (step last (k : Int) s).1 (k + 1) (by omega)
          (by push_cast; exact hrest) m r (by push_cast; exact hr)
        have e : (k + (m + 1) + 1) % 6 = (k + 1 + m + 1) % 6 := by omega
        rw [e]
        exact this

/-- Six consecutive calls at the maximum rate of profile A, from the rate 100
and the counter 0. -/
theorem profile_a_run :
    sustained_high_rate 100 0 (List.replicate 6 ⟨100, false, 1, true⟩) ∧
    run 100 0 (List.replicate 6 ⟨100, false, 1, true⟩)
      = [(100, 1), (100, 2), (100, 3), (100, 4), (100, 5), (0, 0)] := by
  have hh : is_high_rate ⟨100, false, 1, true⟩ 100 := by
    norm_num [is_high_rate, profile_max_rate, HIGH_RATE_THRESHOLD_PERCENT,
      DRUG_PROFILE_A_MAX_RATE]
  have hr : ramp_rate ⟨100, false, 1, true⟩ 100 = 100 := by decide
  have hs : ∀ c : Int, step 100 c ⟨100, false, 1, true⟩
      = if wrap32 (c + 1) > 5 then (0, 0) else (100, wrap32 (c + 1)) := by
    intro c
    simp only [step, select_rate, hr, hh, if_true, Bool.false_eq_true, if_false,
      HIGH_RATE_CYCLES_LIMIT, MAX_PUMP_RATE_ML_HR]
    split_ifs <;> first | rfl | omega
  have s0 : step 100 0 ⟨100, false, 1, true⟩ = (100, 1) := by rw [hs]; decide
  have s1 : step 100 1 ⟨100, false, 1, true⟩ = (100, 2) := by rw [hs]; decide
  have s2 : step 100 2 ⟨100, false, 1, true⟩ = (100, 3) := by rw [hs]; decide
  have s3 : step 100 3 ⟨100, false, 1, true⟩ = (100, 4) := by rw [hs]; decide
  have s4 : step 100 4 ⟨100, false, 1, true⟩ = (100, 5) := by rw [hs]; decide
  have s5 : step 100 5 ⟨100, false, 1, true⟩ = (0, 0) := by rw [hs]; decide
  constructor
  · simp only [List.replicate, sustained_high_rate, s0, s1, s2, s3, s4, s5, hr, hh, and_self,
      true_and]
  · simp only [List.replicate, run, s0, s1, s2, s3, s4, s5]

/-- C12, as stated, fails: in six consecutive calls at the maximum rate of
profile A the 5th call leaves the counter at 5 and still returns 100; the
lockout (rate 0, counter reset) comes on the 6th call. -/
theorem C12_infusion_lockout_counterexample :
    sustained_high_rate 100 0 (List.replicate 6 ⟨100, false, 1, true⟩) ∧
    (run 100 0 (List.replicate 6 ⟨100, false, 1, true⟩))[4]? = some (100, 5) ∧
    (run 100 0 (List.replicate 6 ⟨100, false, 1, true⟩))[4]? ≠ some (0, 0) ∧
    (run 100 0 (List.replicate 6 ⟨100, false, 1, true⟩))[5]? = some (0, 0) := by
  obtain ⟨h1, h2⟩ := profile_a_run
  refine ⟨h1, ?_, ?_, ?_⟩
  · rw [h2]; rfl
  · rw [h2]; decide
  · rw [h2]; rfl

/-- C12 (amended): starting from `high_rate_counter = 0`, on consecutive calls of
`step` with no air in the line, the pump enabled and a commanded rate at or
above 90% of the profile maximum, the counter after the `n`-th call is
`n mod 6` and the returned rate is 0 exactly when `n` is a multiple of 6: the
lockout fires when the incremented counter exceeds `HIGH_RATE_CYCLES_LIMIT`,
that is on the 6th consecutive such call, and calls 1 to 5 return a positive
rate. -/
theorem C12_infusion_lockout (ss : List Sensors) (last : Int)
    (hs : sustained_high_rate last 0 ss) (n : Nat) (r : Int × Int)
    (hr : (run last 0 ss)[n]? = some r) :
    r.2 = (((n + 1) % 6 : Nat) : Int) ∧ (r.1 = 0 ↔ (n + 1) % 6 = 0) := by
  have h := run_high_rate ss last 0 (by omega) hs n r hr
  simpa using h

/-- Witness of C12 (amended): the 6th of six consecutive calls at the maximum
rate of profile A returns rate 0 and counter 0. -/
theorem C12_infusion_lockout_witness :
    sustained_high_rate 100 0 (List.replicate 6 ⟨100, false, 1, true⟩) ∧
    (run 100 0 (List.replicate 6 ⟨100, false, 1, true⟩))[5]? = some (0, 0) ∧
    ((0 : Int) = (((5 + 1) % 6 : Nat) : Int) ∧ ((0 : Int) = 0 ↔ (5 + 1) % 6 = 0)) :=
  ⟨profile_a_run.1, by rw [profile_a_run.2]; rfl,
   C12_infusion_lockout (List.replicate 6 ⟨100, false, 1, true⟩) 100 profile_a_run.1 5 (0, 0)
     (by rw [profile_a_run.2]; rfl)⟩

end InfusionPump

namespace SmartGrid

theorem shift_load_history_rows (g : GridState) (hok : history_ok g) :
    history_ok (shift_load_history g) ∧
    ∀ z, z < ZONE_COUNT →
      (shift_load_history g).load_history.getD z []
        = spec_window_push (g.load_history.getD z []) (g.active_load_amps.getD z 0) := by
  obtain ⟨hl, hrow⟩ := hok
  have hZ : ZONE_COUNT = 3 := rfl
  have hW : OVERLOAD_WINDOW = 3 := rfl
  have key : ∀ z, z < ZONE_COUNT →
      (shift_load_history g).load_history.getD z []
        = shift_push (g.load_history.getD z []) (OVERLOAD_WINDOW - 1)
            (g.active_load_amps.getD z 0) := by
    intro z hz
    match hh : g.load_history, hl with
    | [r0, r1, r2], _ =>
      simp only [shift_load_history, hh, hZ, List.range_succ, List.range_zero, List.nil_append,
        List.cons_append, List.foldl_cons, List.foldl_nil]
      rw [hZ] at hz
      interval_cases z <;> rfl
  have hlen : (shift_load_history g).load_history.length = ZONE_COUNT := by
    match hh : g.load_history, hl with
    | [r0, r1, r2], _ =>
      simp only [shift_load_history, hh, hZ, List.range_succ, List.range_zero, List.nil_append,
        List.cons_append, List.foldl_cons, List.foldl_nil, List.length_set]
      rfl
  refine ⟨⟨hlen, fun z hz => ?_⟩, fun z hz => ?_⟩
  · rw [key z hz, shift_push_length]
    exact hrow z hz
  · rw [key z hz]
    exact shift_push_eq _ _ _ (by rw [hrow z hz, hW])

theorem main_cycle_rows (g : GridState) (e : TickInput) (hok : history_ok g) :
    history_ok (main_cycle g e) ∧
    (main_cycle g e).breaker_status = g.breaker_status ∧
    (main_cycle g e).breaker_rating = g.breaker_rating ∧
    ∀ z, z < ZONE_COUNT →
      (main_cycle g e).load_history.getD z []
        = spec_window_push (g.load_history.getD z []) (g.active_load_amps.getD z 0) := by
  obtain ⟨h1, h2⟩ := shift_load_history_rows g hok
  exact ⟨h1, rfl, rfl, h2⟩

theorem sustained_overload_three (a b c rating : ℚ) :
    sustained_overload [a, b, c] rating (List.range OVERLOAD_WINDOW) = true ↔
      a > rating ∧ b > rating ∧ c > rating := by
  have hW : List.range OVERLOAD_WINDOW = [0, 1, 2] := rfl
  simp only [hW, sustained_overload, List.getD_cons_zero, List.getD_cons_succ]
  split_ifs with h0 h1 h2
  · simp [not_lt.mpr h0]
  · simp [not_lt.mpr h1]
  · simp [not_lt.mpr h2]
  · simp [not_le.mp h0, not_le.mp h1, not_le.mp h2]

theorem overcurrent_flag (g : GridState) (z : Nat) (hz : z < ZONE_COUNT) :
    (verify_substation_integrity g).overcurrent.getD z false
      = (sustained_overload (g.load_history.getD z []) (g.breaker_rating.getD z 0)
            (List.range OVERLOAD_WINDOW)
          && decide (g.breaker_status.getD z 0 = 1)) := by
  have hZ : ZONE_COUNT = 3 := rfl
  rw [hZ] at hz
  interval_cases z <;> rfl

/-- The window that invariant 1 examines on a tick holds the loads carried at
the end of the three previous ticks. -/
theorem overcurrent_window (g0 : GridState) (e1 e2 e3 : TickInput) (z : Nat)
    (hz : z < ZONE_COUNT) (hok : history_ok g0) :
    (verify_substation_integrity
        (main_cycle (main_cycle (main_cycle g0 e1) e2) e3)).overcurrent.getD z false = true ↔
      (g0.breaker_status.getD z 0 = 1 ∧
        g0.active_load_amps.getD z 0 > g0.breaker_rating.getD z 0 ∧
        (main_cycle g0 e1).active_load_amps.getD z 0 > g0.breaker_rating.getD z 0 ∧
        (main_cycle (main_cycle g0 e1) e2).active_load_amps.getD z 0
          > g0.breaker_rating.getD z 0) := by
  obtain ⟨ok1, st1, rt1, row1⟩ := main_cycle_rows g0 e1 hok
  obtain ⟨ok2, st2, rt2, row2⟩ := main_cycle_rows (main_cycle g0 e1) e2 ok1
  obtain ⟨_, st3, rt3, row3⟩ := main_cycle_rows (main_cycle (main_cycle g0 e1) e2) e3 ok2
  have hlen := hok.2 z hz
  have hrow : (main_cycle (main_cycle (main_cycle g0 e1) e2) e3).load_history.getD z []
      = [g0.active_load_amps.getD z 0, (main_cycle g0 e1).active_load_amps.getD z 0,
          (main_cycle (main_cycle g0 e1) e2).active_load_amps.getD z 0] := by
    rw [row3 z hz, row2 z hz, row1 z hz]
    match hh : g0.load_history.getD z [], hlen with
    | [a, b, c], _ => rfl
  rw [overcurrent_flag _ z hz, hrow, st3, st2, st1, rt3, rt2, rt1, Bool.and_eq_true,
    sustained_overload_three, decide_eq_true_eq]
  tauto

theorem init_history_ok : history_ok init_substation := by
  refine ⟨rfl, fun z hz => ?_⟩
  have hZ : ZONE_COUNT = 3 := rfl
  rw [hZ] at hz
  interval_cases z <;> rfl

theorem surge_zone0_load (g : GridState) (hs : g.breaker_status.getD 0 0 = 1)
    (hl : g.active_load_amps ≠ []) :
    (main_cycle g surge_zone0).active_load_amps.getD 0 0 = g.active_load_amps.getD 0 0 + 40 := by
  cases hh : g.active_load_amps with
  | nil => exact absurd hh hl
  | cons a rest =>
    have hne : ¬ g.breaker_status[0]?.getD 0 = 0 := by
      rw [← List.getD_eq_getElem?_getD, hs]; decide
    simp only [main_cycle, grid_controller, simulate_power_flow, shift_load_history, hh,
      ZONE_COUNT, List.range_succ, List.range_zero, List.nil_append, List.cons_append,
      List.foldl_cons, List.foldl_nil, surge_zone0]
    simp [hne]

end SmartGrid

namespace SmartGrid

theorem surge_step (v f : ℚ) (a b c : ℚ) (rt : List ℚ) (p fi : Int)
    (x0 x1 x2 y0 y1 y2 z0 z1 z2 : ℚ) :
    main_cycle ⟨v, [a, b, c], rt, [1, 1, 1], f, p, fi, [[x0, x1, x2], [y0, y1, y2], [z0, z1, z2]]⟩
        surge_zone0
      = ⟨230, [a + 40, 25, 25], rt, [1, 1, 1], f + 0,
          if |f + 0 - NOMINAL_FREQ| > 1 / 2 then 1 else 0, fi,
          [[x1, x2, a], [y1, y2, b], [z1, z2, c]]⟩ := by
  simp [main_cycle, grid_controller, simulate_power_flow, shift_load_history, surge_zone0,
    shift_push, shift_left_loop, ZONE_COUNT, OVERLOAD_WINDOW, List.range_succ]

theorem surged_zero : surged 0
    = ⟨230, [10, 10, 10], [50, 75, 100], [1, 1, 1], 60, 0, 0,
        [[0, 0, 0], [0, 0, 0], [0, 0, 0]]⟩ := by
  norm_num [surged, init_substation, ZONE_COUNT, OVERLOAD_WINDOW, List.range_succ,
    List.replicate]

theorem surged_two : surged 2
    = ⟨230, [90, 25, 25], [50, 75, 100], [1, 1, 1], 60, 0, 0,
        [[0, 10, 50], [0, 10, 25], [0, 10, 25]]⟩ := by
  have h0 := surged_zero
  simp only [surged] at h0 ⊢
  rw [h0, surge_step, surge_step]
  norm_num [NOMINAL_FREQ]

theorem surged_three : surged 3
    = ⟨230, [130, 25, 25], [50, 75, 100], [1, 1, 1], 60, 0, 0,
        [[10, 50, 90], [10, 25, 25], [10, 25, 25]]⟩ := by
  have h : surged 3 = main_cycle (surged 2) surge_zone0 := rfl
  rw [h, surged_two, surge_step]
  norm_num [NOMINAL_FREQ]

theorem surged_four : surged 4
    = ⟨230, [170, 25, 25], [50, 75, 100], [1, 1, 1], 60, 0, 0,
        [[50, 90, 130], [25, 25, 25], [25, 25, 25]]⟩ := by
  have h : surged 4 = main_cycle (surged 3) surge_zone0 := rfl
  rw [h, surged_three, surge_step]
  norm_num [NOMINAL_FREQ]

theorem surged_five : surged 5
    = ⟨230, [210, 25, 25], [50, 75, 100], [1, 1, 1], 60, 0, 0,
        [[90, 130, 170], [25, 25, 25], [25, 25, 25]]⟩ := by
  have h : surged 5 = main_cycle (surged 4) surge_zone0 := rfl
  rw [h, surged_four, surge_step]
  norm_num [NOMINAL_FREQ]

/-- C13 fails on the code: from `init_substation`, four surges in a row put
zone 0 at 50, 90, 130 and 170 A against a rating of 50 A with its breaker
closed. On the tick with 170 A, the third consecutive tick above the rating,
the window examined is 50, 90, 130 (the loads of the three previous ticks) and
`verify_substation_integrity` reports nothing and returns true; the overcurrent
is reported one tick later. Whatever the loads of ticks 1 to 3 are, no
overcurrent can be reported on tick 3, whose window still holds the initial
10 A. -/
theorem C13_grid_overcurrent_one_tick_late :
    (∀ e1 e2 e3 : TickInput,
      (verify_substation_integrity
        (main_cycle (main_cycle (main_cycle init_substation e1) e2) e3)).overcurrent
        = [false, false, false]) ∧
    ((surged 2).active_load_amps.getD 0 0 = 90 ∧ (surged 3).active_load_amps.getD 0 0 = 130 ∧
      (surged 4).active_load_amps.getD 0 0 = 170) ∧
    ((surged 4).breaker_rating.getD 0 0 = 50 ∧ (surged 4).breaker_status.getD 0 0 = 1) ∧
    (surged 4).load_history.getD 0 [] = [50, 90, 130] ∧
    (verify_substation_integrity (surged 4)).overcurrent = [false, false, false] ∧
    (verify_substation_integrity (surged 4)).safe = true ∧
    (verify_substation_integrity (surged 5)).overcurrent = [true, false, false] ∧
    (verify_substation_integrity (surged 5)).safe = false := by
  have h2l : (surged 2).active_load_amps.getD 0 0 = 90 := by rw [surged_two]; rfl
  refine ⟨fun e1 e2 e3 => ?_, ⟨h2l, ?_, ?_⟩, ⟨?_, ?_⟩, ?_, ?_, ?_, ?_, ?_⟩
  · have hz : ∀ z, z < ZONE_COUNT →
        (verify_substation_integrity
          (main_cycle (main_cycle (main_cycle init_substation e1) e2) e3)).overcurrent.getD z
            false = false := by
      intro z hz
      rw [Bool.eq_false_iff, Ne, overcurrent_window init_substation e1 e2 e3 z hz init_history_ok]
      rintro ⟨_, hgt, _⟩
      have hZ : ZONE_COUNT = 3 := rfl
      rw [hZ] at hz
      revert hgt
      interval_cases z <;> norm_num [init_substation, ZONE_COUNT, List.range_succ, List.replicate]
    have h0 := hz 0 (by decide)
    have h1 := hz 1 (by decide)
    have h2 := hz 2 (by decide)
    have hform : ∀ g : GridState, (verify_substation_integrity g).overcurrent
        = [(verify_substation_integrity g).overcurrent.getD 0 false,
            (verify_substation_integrity g).overcurrent.getD 1 false,
            (verify_substation_integrity g).overcurrent.getD 2 false] := fun _ => rfl
    rw [hform, h0, h1, h2]
  · rw [surged_three]; rfl
  · rw [surged_four]; rfl
  · rw [surged_four]; rfl
  · rw [surged_four]; rfl
  · rw [surged_four]; rfl
  · rw [surged_four]
    norm_num [verify_substation_integrity, sustained_overload, ZONE_COUNT, OVERLOAD_WINDOW,
      List.range_succ]
  · rw [surged_four]
    norm_num [verify_substation_integrity, sustained_overload, ZONE_COUNT, OVERLOAD_WINDOW,
      List.range_succ, NOMINAL_FREQ, FREQ_TOLERANCE, SHORT_CIRCUIT_IMPEDANCE]
  · rw [surged_five]
    norm_num [verify_substation_integrity, sustained_overload, ZONE_COUNT, OVERLOAD_WINDOW,
      List.range_succ]
  · rw [surged_five]
    norm_num [verify_substation_integrity, sustained_overload, ZONE_COUNT, OVERLOAD_WINDOW,
      List.range_succ, NOMINAL_FREQ, FREQ_TOLERANCE, SHORT_CIRCUIT_IMPEDANCE]

end SmartGrid

namespace MedicalInfusionPump

theorem air_run_one : air_run 1
    = ⟨10, 1 / 360, 500, 3, 1, 1, [10, 10, 10, 10, 10, 10, 10, 10, 10, 10, 10, 10],
        [0, 0, 0, 0, 0, 0, 0, 0, 0, 0, 0, 0], [0, 0]⟩ := by
  norm_num [air_run, main_cycle, update_history_buffers, simulate_hardware_sensors,
    control_pump_logic, init_infusion_system, air_tick, HISTORY_SIZE, shift_push,
    shift_left_loop, List.range_succ, List.replicate]

theorem air_run_two : air_run 2
    = ⟨10, 1 / 180, 500, 3, 1, 1, [10, 10, 10, 10, 10, 10, 10, 10, 10, 10, 10, 10],
        [0, 0, 0, 0, 0, 0, 0, 0, 0, 0, 0, 1 / 360], [0, 1]⟩ := by
  have h : air_run 2 = (main_cycle (air_run 1) air_tick).1 := rfl
  rw [h, air_run_one]
  norm_num [main_cycle, update_history_buffers, simulate_hardware_sensors, control_pump_logic,
    air_tick, HISTORY_SIZE, shift_push, shift_left_loop, List.range_succ]

theorem main_cycle_air_history (i : InfusionState) (e : TickInput) :
    (main_cycle i e).1.air_sensor_history
      = (i.air_sensor_history.set 0 (i.air_sensor_history.getD 1 0)).set 1
          i.air_bubble_sensor := by
  simp only [main_cycle, control_pump_logic]
  split_ifs <;> rfl

theorem control_pump_logic_air (i : InfusionState) (e : TickInput) :
    (control_pump_logic i e).air_bubble_sensor = i.air_bubble_sensor := by
  simp only [control_pump_logic]
  split_ifs <;> rfl

theorem main_cycle_air_sensor (i : InfusionState) (e : TickInput) :
    (main_cycle i e).1.air_bubble_sensor = if e.air_bubble then 1 else 0 := by
  show (control_pump_logic (simulate_hardware_sensors (update_history_buffers i) e)
    e).air_bubble_sensor = _
  rw [control_pump_logic_air]
  rfl

theorem main_cycle_verdict (i : InfusionState) (e : TickInput) :
    (main_cycle i e).2 = verify_infusion_safety (main_cycle i e).1 := rfl

theorem verify_air_failure (i : InfusionState) :
    (verify_infusion_safety i).air_failure
      = decide (i.air_sensor_history.getD 0 0 = 1 ∧ i.air_sensor_history.getD 1 0 = 1
          ∧ i.pump_state ≠ 0) := rfl

theorem second_tick_air_history (e1 e2 : TickInput) :
    (main_cycle (main_cycle init_infusion_system e1).1 e2).1.air_sensor_history
      = [0, if e1.air_bubble then 1 else 0] := by
  rw [main_cycle_air_history, main_cycle_air_history, main_cycle_air_sensor]
  rfl

/-- C14 fails on the code: `update_history_buffers` runs before the tick's
sensor reading is taken, so the newest `air_sensor_history` entry on any tick is
the previous tick's reading. From `init_infusion_system`, with the air sensor
reading 1 on ticks 1 and 2 and the pump running, the history examined on tick 2
is [0, 1] and `verify_infusion_safety` reports no air-in-line failure and
returns true; the failure is reported on tick 3, even if the sensor then reads
0. Whatever the environment does on ticks 1 and 2, no air-in-line failure can be
reported on tick 2. -/
theorem C14_infusion_monitor_one_tick_behind :
    (∀ e1 e2 : TickInput,
      (main_cycle (main_cycle init_infusion_system e1).1 e2).1.air_sensor_history
          = [0, if e1.air_bubble then 1 else 0] ∧
      (main_cycle (main_cycle init_infusion_system e1).1 e2).2.air_failure = false) ∧
    (∀ (i : InfusionState) (e : TickInput),
      (main_cycle i e).1.air_sensor_history
        = (i.air_sensor_history.set 0 (i.air_sensor_history.getD 1 0)).set 1
            i.air_bubble_sensor) ∧
    (air_run 1).air_bubble_sensor = 1 ∧
    (air_run 2).air_bubble_sensor = 1 ∧
    (air_run 2).pump_state = 1 ∧
    (air_run 2).air_sensor_history = [0, 1] ∧
    (main_cycle (air_run 1) air_tick).2 = ⟨false, false, false, true⟩ ∧
    (main_cycle (air_run 2) clear_tick).1.air_bubble_sensor = 0 ∧
    (main_cycle (air_run 2) clear_tick).2.air_failure = true ∧
    (main_cycle (air_run 2) clear_tick).2.safe = false := by
  have hv : (main_cycle (air_run 1) air_tick).2 = verify_infusion_safety (air_run 2) := rfl
  refine ⟨fun e1 e2 => ⟨second_tick_air_history e1 e2, ?_⟩, main_cycle_air_history,
    ?_, ?_, ?_, ?_, ?_, ?_, ?_, ?_⟩
  · rw [main_cycle_verdict, verify_air_failure, second_tick_air_history]
    simp
  · rw [air_run_one]
  · rw [air_run_two]
  · rw [air_run_two]
  · rw [air_run_two]
  · rw [hv, air_run_two]
    norm_num [verify_infusion_safety, PRESSURE_THRESHOLD, DOSE_LIMIT_PERCENT, rate_scan,
      HISTORY_SIZE, List.range_succ]
  · rw [air_run_two]
    norm_num [main_cycle, update_history_buffers, simulate_hardware_sensors,
      control_pump_logic, clear_tick]
  · rw [air_run_two]
    norm_num [main_cycle, update_history_buffers, simulate_hardware_sensors,
      control_pump_logic, clear_tick, verify_infusion_safety]
  · rw [air_run_two]
    norm_num [main_cycle, update_history_buffers, simulate_hardware_sensors,
      control_pump_logic, clear_tick, verify_infusion_safety]

end MedicalInfusionPump

namespace Pipeline

/-- C21 does not hold of the code: on the first call of the program (valve at 50,
latch clear) an upstream pressure of 850, above `OVERPRESSURE_THRESHOLD`, sets
the latch and the desired position `MIN_VALVE_POSITION`, but the close-rate
limit of stage 5 returns 50 - `MAX_CLOSE_RATE` = 25; the valve reaches
`MIN_VALVE_POSITION` one call later. -/
theorem C21_pipeline_overpressure_rate_limited :
    (850 : Int) > OVERPRESSURE_THRESHOLD ∧
    desired_position init_state ⟨850, 40⟩ = (MIN_VALVE_POSITION, true) ∧
    step_control_logic init_state ⟨850, 40⟩ = (25, ⟨true, 25⟩) ∧
    step_control_logic ⟨true, 25⟩ ⟨850, 40⟩ = (MIN_VALVE_POSITION, ⟨true, 0⟩) ∧
    ¬ (∀ (st : State) (s : Sensors),
        0 ≤ st.last_valve_position → st.last_valve_position ≤ 100 →
        s.upstream_pressure > OVERPRESSURE_THRESHOLD →
        (step_control_logic st s).1 = MIN_VALVE_POSITION) := by
  refine ⟨by decide, by decide, by decide, by decide, fun h => ?_⟩
  have h1 := h init_state ⟨850, 40⟩ (by decide) (by decide) (by decide)
  revert h1
  decide

end Pipeline

namespace RoboticArm

theorem arm_clamp_zero : clamp 0 (-MAX_MOTOR_TORQUE) MAX_MOTOR_TORQUE = 0 := by decide

/-- C22: for every `last_torque` and every input, `step` returns exactly 0 when
`force_sensor_n` exceeds `COLLISION_FORCE_N` (50), and also when
`motion_enabled` is false. -/
theorem C22_arm_collision_zero (last_torque : Int) (s : Sensors)
    (h : s.force_sensor_n > COLLISION_FORCE_N ∨ s.motion_enabled = false) :
    step last_torque s = 0 := by
  unfold step
  simp only []
  by_cases hf : s.force_sensor_n < 0 ∨ s.force_sensor_n > SENSOR_FORCE_MAX
  · rw [if_pos hf]; exact arm_clamp_zero
  · rw [if_neg hf]
    by_cases hc : s.force_sensor_n > COLLISION_FORCE_N
    · rw [if_pos hc]; exact arm_clamp_zero
    · rw [if_neg hc]
      rcases h with h | h
      · exact absurd h hc
      · rw [if_pos (Or.inl h)]; exact arm_clamp_zero

/-- Witness of C22: a collision force of 60 N with the arm driven at 80, and a
disabled motion with no contact force. -/
theorem C22_arm_collision_zero_witness :
    step 80 ⟨1000, 500, 60, 1, true⟩ = 0 ∧ step 80 ⟨1000, 500, 10, 1, false⟩ = 0 :=
  ⟨C22_arm_collision_zero 80 ⟨1000, 500, 60, 1, true⟩ (Or.inl (by decide)),
   C22_arm_collision_zero 80 ⟨1000, 500, 10, 1, false⟩ (Or.inr rfl)⟩

/-- C23 does not hold of the code: starting from the torque 0 of `main`, two
calls with a negative position error drive the torque to -40; on the next call
the position error is +100, the desired torque is +80, and the slew limit
returns -40 + `MAX_TORQUE_SLEW` = -20: a negative torque with a positive
position error. -/
theorem C23_arm_direction_reversed :
    step 0 ⟨0, 100, 10, 1, true⟩ = -20 ∧
    step (-20) ⟨0, 100, 10, 1, true⟩ = -40 ∧
    position_error ⟨100, 0, 10, 1, true⟩ = 100 ∧
    step (-40) ⟨100, 0, 10, 1, true⟩ = -20 ∧
    ¬ (∀ (last : Int) (s : Sensors), -100 ≤ last → last ≤ 100 →
        step last s = 0 ∨
        (step last s > 0 ∧ s.target_position - s.current_position > 0) ∨
        (step last s < 0 ∧ s.target_position - s.current_position < 0)) := by
  refine ⟨by decide, by decide, by decide, by decide, fun h => ?_⟩
  have h1 := h (-40) ⟨100, 0, 10, 1, true⟩ (by decide) (by decide)
  revert h1
  decide

theorem arm_step_override (last : Int) (s : Sensors) (h : override_active s) : step last s = 0 := by
  unfold step
  simp only []
  by_cases hf : s.force_sensor_n < 0 ∨ s.force_sensor_n > SENSOR_FORCE_MAX
  · rw [if_pos hf]; exact arm_clamp_zero
  · rw [if_neg hf]
    by_cases hc : s.force_sensor_n > COLLISION_FORCE_N
    · rw [if_pos hc]; exact arm_clamp_zero
    · rw [if_neg hc]
      rcases h with h | h | h
      · exact absurd h hf
      · exact absurd h hc
      · rw [if_pos h]; exact arm_clamp_zero

theorem arm_step_normal (last : Int) (s : Sensors) (h : ¬ override_active s) :
    step last s = clamp (apply_slew_rate last
      (if position_error s > 0
        then (if s.speed_profile = 0 then TORQUE_PROFILE_PRECISE else TORQUE_PROFILE_FAST)
        else -(if s.speed_profile = 0 then TORQUE_PROFILE_PRECISE else TORQUE_PROFILE_FAST)))
      (-MAX_MOTOR_TORQUE) MAX_MOTOR_TORQUE := by
  unfold override_active at h
  push_neg at h
  obtain ⟨hf, hc, hm⟩ := h
  unfold step
  simp only []
  rw [if_neg (by push_neg; exact hf), if_neg (by push_neg; exact hc),
    if_neg (by push_neg; exact hm)]

theorem arm_slew_clamp_close (last target : Int) (h0 : -100 ≤ last) (h1 : last ≤ 100) :
    |clamp (apply_slew_rate last target) (-MAX_MOTOR_TORQUE) MAX_MOTOR_TORQUE - last|
      ≤ MAX_TORQUE_SLEW := by
  rw [abs_le]
  unfold clamp apply_slew_rate wrap32
  simp only [MAX_MOTOR_TORQUE, MAX_TORQUE_SLEW]
  split_ifs <;> constructor <;> omega

/-- C24, as stated, fails: with the arm driven at 80 a collision force of 60 N
makes `step` return 0, a change of 80. -/
theorem C24_arm_slew_limit_counterexample :
    step 80 ⟨1000, 500, 60, 1, true⟩ = 0 ∧
    ¬ (∀ (last : Int) (s : Sensors), -100 ≤ last → last ≤ 100 →
        |step last s - last| ≤ MAX_TORQUE_SLEW) := by
  refine ⟨by decide, fun h => ?_⟩
  have h1 := h 80 ⟨1000, 500, 60, 1, true⟩ (by decide) (by decide)
  revert h1
  decide

/-- C24 (amended): for `last_torque` in [-100, 100], a call that takes the normal
operational control branch (force in [0, 50], motion enabled, position error
beyond the tolerance) returns a torque within `MAX_TORQUE_SLEW` (20) of
`last_torque`; a call that takes the sensor-fault, collision or
motion-disabled / at-target branch returns 0, so there the change is
`|last_torque|`, which is within `MAX_TORQUE_SLEW` when `|last_torque| ≤ 20`. -/
theorem C24_arm_slew_limit (last : Int) (s : Sensors) (h0 : -100 ≤ last) (h1 : last ≤ 100) :
    (¬ override_active s → |step last s - last| ≤ MAX_TORQUE_SLEW) ∧
    (override_active s → step last s = 0 ∧ |step last s - last| = |last|) ∧
    (|last| ≤ MAX_TORQUE_SLEW → |step last s - last| ≤ MAX_TORQUE_SLEW) := by
  have hn : ¬ override_active s → |step last s - last| ≤ MAX_TORQUE_SLEW := by
    intro h
    rw [arm_step_normal last s h]
    exact arm_slew_clamp_close last _ h0 h1
  have ho : override_active s → step last s = 0 ∧ |step last s - last| = |last| := by
    intro h
    rw [arm_step_override last s h]
    exact ⟨rfl, by rw [zero_sub, abs_neg]⟩
  refine ⟨hn, ho, fun hl => ?_⟩
  by_cases h : override_active s
  · rw [(ho h).2]; exact hl
  · exact hn h

/-- Witness of C24: a precise-profile call at torque 80 is slewed down to 60. -/
theorem C24_arm_slew_limit_witness :
    ¬ override_active ⟨1000, 500, 10, 0, true⟩ ∧
    step 80 ⟨1000, 500, 10, 0, true⟩ = 60 ∧
    |step 80 ⟨1000, 500, 10, 0, true⟩ - 80| ≤ MAX_TORQUE_SLEW :=
  ⟨by decide, by decide,
   (C24_arm_slew_limit 80 ⟨1000, 500, 10, 0, true⟩ (by decide) (by decide)).1 (by decide)⟩

end RoboticArm

namespace LawnMower

open mower_mode_t

/-- C25 does not hold of the code: in the initial state of `main`
(`MOWER_NORMAL`, blade off) a tilt of 25, above `SAFE_TILT_ANGLE` (20) and not
above `MAX_TILT_ANGLE` (30), with `follow_gps_path` set leaves the mode
`MOWER_NORMAL` and returns `BLADE_ON`. -/
theorem C25_mower_blade_on_in_tilt_band :
    (25 : Int) > SAFE_TILT_ANGLE ∧
    step_control_logic BLADE_OFF MOWER_NORMAL ⟨25, true⟩ = (BLADE_ON, MOWER_NORMAL) ∧
    ¬ (∀ (prev : Int) (mode : mower_mode_t) (s : Sensors),
        ¬ (s.tilt_angle > SAFE_TILT_ANGLE ∧ (step_control_logic prev mode s).1 = BLADE_ON)) := by
  refine ⟨by decide, by decide, fun h => ?_⟩
  exact h BLADE_OFF MOWER_NORMAL ⟨25, true⟩ ⟨by decide, by decide⟩

end LawnMower

namespace WeldingRobot

open robot_mode_t

/-- One call entered outside `SLOW_START`, and with the previous command
`MOTOR_CMD_STOP` if entered in `EMERGENCY_STOP`, does not return in
`SLOW_START`, and returns `MOTOR_CMD_STOP` if it returns in `EMERGENCY_STOP`. -/
theorem welding_step_keeps_invariant (prev : Int) (st : State) (human : Bool)
    (h1 : st.mode ≠ SLOW_START) (h2 : st.mode = EMERGENCY_STOP → prev = MOTOR_CMD_STOP) :
    (step_control_logic prev st human).2.mode ≠ SLOW_START ∧
    ((step_control_logic prev st human).2.mode = EMERGENCY_STOP →
      (step_control_logic prev st human).1 = MOTOR_CMD_STOP) := by
  obtain ⟨mode, p, t⟩ := st
  cases human <;> cases mode <;>
    simp [step_control_logic, mode_transition] at h1 h2 ⊢
  · split_ifs <;> simp
  · simp [h2]

theorem welding_run_invariant (es : List TickInput) : ∀ (cmd : Int) (mode : robot_mode_t),
    mode ≠ SLOW_START → (mode = EMERGENCY_STOP → cmd = MOTOR_CMD_STOP) →
    ∀ t ∈ run cmd mode es,
      (t.mode ≠ SLOW_START ∨ t.motor_prev = MOTOR_CMD_STOP) ∧
      (t.mode = EMERGENCY_STOP → t.motor_command = MOTOR_CMD_STOP) := by
  induction es with
  | nil => intro cmd mode _ _ t ht; simp [run] at ht
  | cons e rest ih =>
    intro cmd mode h1 h2 t ht
    have hs := welding_step_keeps_invariant cmd ⟨mode, e.program_path_step, e.total_path_steps⟩
      e.human_in_safety_zone h1 h2
    simp only [run, List.mem_cons] at ht
    rcases ht with ht | ht
    · subst ht
      exact ⟨Or.inl hs.1, hs.2⟩
    · exact ih _ _ hs.1 hs.2 t ht

/-- C26: in every run of the loop of `main` from its initial state
(`motor_command = MOTOR_CMD_STOP`, `mode = NORMAL`), each returned command being
the next `motor_prev`, for every sequence of `human_in_safety_zone`,
`program_path_step` and `total_path_steps` values, after every step
`mode != SLOW_START` or `motor_prev == MOTOR_CMD_STOP`, and
`mode == EMERGENCY_STOP` implies that the returned command is `MOTOR_CMD_STOP`. -/
theorem C26_welding_reachable_invariant (es : List TickInput) :
    ∀ t ∈ run MOTOR_CMD_STOP NORMAL es,
      (t.mode ≠ SLOW_START ∨ t.motor_prev = MOTOR_CMD_STOP) ∧
      (t.mode = EMERGENCY_STOP → t.motor_command = MOTOR_CMD_STOP) :=
  welding_run_invariant es MOTOR_CMD_STOP NORMAL (by decide) (by decide)

/-- Witness of C26: a move, an intrusion, and the restart after it. -/
theorem C26_welding_reachable_invariant_witness :
    run MOTOR_CMD_STOP NORMAL [⟨false, 0, 100⟩, ⟨true, 1, 100⟩, ⟨false, 1, 100⟩]
      = [⟨MOTOR_CMD_STOP, MOTOR_CMD_MOVE, NORMAL⟩, ⟨MOTOR_CMD_MOVE, MOTOR_CMD_STOP, EMERGENCY_STOP⟩,
         ⟨MOTOR_CMD_STOP, MOTOR_CMD_MOVE, NORMAL⟩] ∧
    ((⟨MOTOR_CMD_MOVE, MOTOR_CMD_STOP, EMERGENCY_STOP⟩ : LoopState).mode = EMERGENCY_STOP →
      (⟨MOTOR_CMD_MOVE, MOTOR_CMD_STOP, EMERGENCY_STOP⟩ : LoopState).motor_command
        = MOTOR_CMD_STOP) :=
  ⟨by decide,
   (C26_welding_reachable_invariant [⟨false, 0, 100⟩, ⟨true, 1, 100⟩, ⟨false, 1, 100⟩]
     ⟨MOTOR_CMD_MOVE, MOTOR_CMD_STOP, EMERGENCY_STOP⟩ (by decide)).2⟩

end WeldingRobot

namespace AbsBrake

open abs_mode_t

/-- C27, as stated, fails: with `abs_system_fault` set, a released brake
(`prev_pressure` 0), a request of 180 and a slip of 20 above the target 15, the
call enters `ABS_FAULT` and returns the request, 180. -/
theorem C27_abs_no_raise_while_slipping_counterexample :
    compute_slip ⟨80, 100, 180, false, true⟩ = 20 ∧
    slip_target ⟨80, 100, 180, false, true⟩ = 15 ∧
    step_control_logic 0 ABS_NORMAL ⟨80, 100, 180, false, true⟩ = (180, ABS_FAULT) ∧
    ¬ (∀ (prev : Int) (mode : abs_mode_t) (s : Sensors), 0 ≤ prev → prev ≤ 255 →
        0 ≤ s.driver_brake_request → s.driver_brake_request ≤ 255 →
        ¬ (compute_slip s > slip_target s ∧ (step_control_logic prev mode s).1 > prev)) := by
  refine ⟨by decide, by decide, by decide, fun h => ?_⟩
  exact h 0 ABS_NORMAL ⟨80, 100, 180, false, true⟩ (by decide) (by decide) (by decide)
    (by decide) ⟨by decide, by decide⟩

/-- C27 (amended): for every prior mode, every `prev_pressure` in [0, 255] and
every input with `driver_brake_request` in [0, 255]: when `abs_system_fault` is
false the mode on return is not `ABS_FAULT` and it is never the case that
`compute_slip() > slip_target` and the returned pressure exceeds
`prev_pressure`; when `abs_system_fault` is true the mode on return is
`ABS_FAULT` and the returned pressure is `driver_brake_request`, whatever the
slip. -/
theorem C27_abs_no_raise_while_slipping (prev : Int) (mode : abs_mode_t) (s : Sensors)
    (hp0 : 0 ≤ prev) (hp1 : prev ≤ 255)
    (hr0 : 0 ≤ s.driver_brake_request) (hr1 : s.driver_brake_request ≤ 255) :
    (s.abs_system_fault = false →
      (step_control_logic prev mode s).2 ≠ ABS_FAULT ∧
      ¬ (compute_slip s > slip_target s ∧ (step_control_logic prev mode s).1 > prev)) ∧
    (s.abs_system_fault = true →
      (step_control_logic prev mode s).2 = ABS_FAULT ∧
      (step_control_logic prev mode s).1 = s.driver_brake_request) := by
  constructor
  · intro hf
    have hm : mode_transition mode s ≠ ABS_FAULT := by
      unfold mode_transition
      rw [hf]
      cases mode <;> simp
    refine ⟨hm, ?_⟩
    rintro ⟨hslip, hgt⟩
    revert hgt
    simp only [step_control_logic, select_pressure, if_neg hm, if_pos hslip, wrap32,
      MAX_BRAKE_PRESSURE, PRESSURE_STEP_DOWN]
    split_ifs <;> omega
  · intro hf
    have hm : mode_transition mode s = ABS_FAULT := by
      unfold mode_transition
      rw [hf]
      rfl
    refine ⟨hm, ?_⟩
    simp only [step_control_logic, select_pressure, if_pos hm, MAX_BRAKE_PRESSURE]
    split_ifs <;> omega

/-- Witness of C27: in `ABS_NORMAL` at pressure 100 with a slip of 20 the
pressure is stepped down to 60. -/
theorem C27_abs_no_raise_while_slipping_witness :
    step_control_logic 100 ABS_NORMAL ⟨80, 100, 180, false, false⟩ = (60, ABS_NORMAL) ∧
    ¬ (compute_slip ⟨80, 100, 180, false, false⟩ > slip_target ⟨80, 100, 180, false, false⟩ ∧
      (step_control_logic 100 ABS_NORMAL ⟨80, 100, 180, false, false⟩).1 > 100) :=
  ⟨by decide,
   ((C27_abs_no_raise_while_slipping 100 ABS_NORMAL ⟨80, 100, 180, false, false⟩
     (by decide) (by decide) (by decide) (by decide)).1 rfl).2⟩

end AbsBrake

namespace MineVentilation

/-- C28 does not hold of the code: from `high_methane_counter = 0` and the idle
fan speed of `main`, four consecutive readings of 600 ppm leave the counter at
1, 2, 3 and 4; the fourth value exceeds `HIGH_METHANE_DURATION` (3). -/
theorem C28_mine_counter_unbounded :
    run FAN_SPEED_IDLE 0 [⟨600, true⟩, ⟨600, true⟩, ⟨600, true⟩, ⟨600, true⟩]
      = [(100, 1), (100, 2), (100, 3), (100, 4)] ∧
    ¬ (∀ (ss : List Sensors), ∀ r ∈ run FAN_SPEED_IDLE 0 ss, r.2 ≤ HIGH_METHANE_DURATION) := by
  refine ⟨by decide, fun h => ?_⟩
  have h1 := h [⟨600, true⟩, ⟨600, true⟩, ⟨600, true⟩, ⟨600, true⟩] (100, 4) (by decide)
  revert h1
  decide

end MineVentilation

namespace ControlRod

/-- A call on which the SCRAM condition holds, or that is entered with
`scram_active` set, returns `ROD_FULLY_INSERTED`. -/
theorem rod_step_scram (d : Int) (st : State) (s : Sensors)
    (h : (scram_detection st s).scram_active = true) :
    (step_control_logic d st s).1 = ROD_FULLY_INSERTED := by
  unfold step_control_logic
  simp only []
  rw [if_pos h]

theorem rod_detection_trigger (st : State) (s : Sensors)
    (h : s.seismic_event_detected = true ∨ s.coolant_temperature ≥ HIGH_TEMP_THRESHOLD) :
    scram_detection st s = ⟨true, SCRAM_HOLD_CYCLES⟩ := by
  unfold scram_detection
  rw [if_pos h]

/-- After a call that goes through the SCRAM override with a timer above 1 at
the decrement, the SCRAM stays active and the timer is one less. -/
theorem rod_step_scram_state (d : Int) (st : State) (s : Sensors)
    (h : (scram_detection st s).scram_active = true)
    (ht0 : 1 < (scram_detection st s).scram_timer)
    (ht1 : (scram_detection st s).scram_timer ≤ 3) :
    (step_control_logic d st s).2 = ⟨true, (scram_detection st s).scram_timer - 1⟩ := by
  unfold step_control_logic
  simp only []
  rw [if_pos h]
  have hw : wrap32 ((scram_detection st s).scram_timer - 1)
      = (scram_detection st s).scram_timer - 1 := by
    unfold wrap32; omega
  simp only [hw, h]
  rw [if_neg (by intro hc; omega)]

/-- C29: if on some call `seismic_event_detected` is set or
`coolant_temperature >= 800`, that call and the next two calls each return
`ROD_FULLY_INSERTED` (100), whatever the state before the first call, the
sensor values on the next two calls and the `last_rod_depth` arguments; and
after every call, `scram_active` implies that the call returned
`ROD_FULLY_INSERTED`. -/
theorem C29_scram_hold :
    (∀ (st : State) (d0 d1 d2 : Int) (s0 s1 s2 : Sensors),
      (s0.seismic_event_detected = true ∨ s0.coolant_temperature ≥ HIGH_TEMP_THRESHOLD) →
      (step_control_logic d0 st s0).1 = ROD_FULLY_INSERTED ∧
      (step_control_logic d1 (step_control_logic d0 st s0).2 s1).1 = ROD_FULLY_INSERTED ∧
      (step_control_logic d2 (step_control_logic d1 (step_control_logic d0 st s0).2 s1).2 s2).1
        = ROD_FULLY_INSERTED) ∧
    (∀ (st : State) (d : Int) (s : Sensors),
      (step_control_logic d st s).2.scram_active = true →
      (step_control_logic d st s).1 = ROD_FULLY_INSERTED) := by
  constructor
  · intro st d0 d1 d2 s0 s1 s2 h
    have e0 := rod_detection_trigger st s0 h
    have r0 : (step_control_logic d0 st s0).2 = ⟨true, 2⟩ := by
      rw [rod_step_scram_state d0 st s0 (by rw [e0]) (by rw [e0]; decide) (by rw [e0]; decide), e0]
      rfl
    refine ⟨rod_step_scram d0 st s0 (by rw [e0]), ?_, ?_⟩
    · rw [r0]
      apply rod_step_scram
      unfold scram_detection
      split_ifs <;> rfl
    · rw [r0]
      by_cases h1 : s1.seismic_event_detected = true ∨ s1.coolant_temperature ≥ HIGH_TEMP_THRESHOLD
      · have e1 := rod_detection_trigger ⟨true, 2⟩ s1 h1
        have r1 : (step_control_logic d1 ⟨true, 2⟩ s1).2 = ⟨true, 2⟩ := by
          rw [rod_step_scram_state d1 _ s1 (by rw [e1]) (by rw [e1]; decide) (by rw [e1]; decide), e1]
          rfl
        rw [r1]
        apply rod_step_scram
        unfold scram_detection
        split_ifs <;> rfl
      · have e1 : scram_detection ⟨true, 2⟩ s1 = ⟨true, 2⟩ := by
          unfold scram_detection
          rw [if_neg h1]
        have r1 : (step_control_logic d1 ⟨true, 2⟩ s1).2 = ⟨true, 1⟩ := by
          rw [rod_step_scram_state d1 _ s1 (by rw [e1]) (by rw [e1]; decide) (by rw [e1]; decide), e1]
          rfl
        rw [r1]
        apply rod_step_scram
        unfold scram_detection
        split_ifs <;> rfl
  · intro st d s h
    by_cases hs : (scram_detection st s).scram_active = true
    · exact rod_step_scram d st s hs
    · exfalso
      unfold step_control_logic at h
      simp only [] at h
      rw [if_neg hs] at h
      exact hs h

/-- Witness of C29: a seismic event during normal operation, followed by two
calm calls at 700 degrees. -/
theorem C29_scram_hold_witness :
    (step_control_logic 40 ⟨false, 0⟩ ⟨750, 750, true, 600⟩).1 = ROD_FULLY_INSERTED ∧
    (step_control_logic 40
      (step_control_logic 40
        (step_control_logic 40 ⟨false, 0⟩ ⟨750, 750, true, 600⟩).2
        ⟨700, 750, false, 600⟩).2 ⟨700, 700, false, 600⟩).1 = ROD_FULLY_INSERTED ∧
    (step_control_logic 40
      (step_control_logic 40
        (step_control_logic 40 ⟨false, 0⟩ ⟨750, 750, true, 600⟩).2
        ⟨700, 750, false, 600⟩).2 ⟨700, 700, false, 600⟩).2 = ⟨false, 0⟩ :=
  ⟨(C29_scram_hold.1 ⟨false, 0⟩ 40 40 40 ⟨750, 750, true, 600⟩ ⟨700, 750, false, 600⟩
      ⟨700, 700, false, 600⟩ (Or.inl rfl)).1,
   (C29_scram_hold.1 ⟨false, 0⟩ 40 40 40 ⟨750, 750, true, 600⟩ ⟨700, 750, false, 600⟩
      ⟨700, 700, false, 600⟩ (Or.inl rfl)).2.2,
   by decide⟩

end ControlRod

namespace RailwaySignal

/-- C30: whenever `step` returns `STATE_GREEN`, `track_occupied` is false and
`comms_link_ok`, `sensor_health_ok` and `scheduled_train_due` are true; and the
result is always one of `STATE_RED`, `STATE_YELLOW`, `STATE_GREEN`. -/
theorem C30_railway_green_conditions (last_signal_state : Int) (s : Sensors) :
    (step last_signal_state s = STATE_GREEN →
      s.track_occupied = false ∧ s.comms_link_ok = true ∧ s.sensor_health_ok = true ∧
      s.scheduled_train_due = true) ∧
    (step last_signal_state s = STATE_RED ∨ step last_signal_state s = STATE_YELLOW ∨
      step last_signal_state s = STATE_GREEN) := by
  unfold step
  constructor
  · intro h
    split_ifs at h with h1 h2 h3 h4 h5
    all_goals first
      | exact absurd h (by decide)
      | exact ⟨h4.2, by simpa using h1, by simpa using h2, h4.1⟩
  · split_ifs
    · exact Or.inl rfl
    · exact Or.inl rfl
    · exact Or.inl rfl
    · exact Or.inr (Or.inl rfl)
    · exact Or.inr (Or.inr rfl)
    · exact Or.inl rfl

/-- Witness of C30: a due train on a clear track with healthy links, after a
yellow signal, gets green. -/
theorem C30_railway_green_conditions_witness :
    step STATE_YELLOW ⟨false, 0, true, true, true⟩ = STATE_GREEN ∧
    (⟨false, 0, true, true, true⟩ : Sensors).track_occupied = false ∧
    (⟨false, 0, true, true, true⟩ : Sensors).scheduled_train_due = true :=
  ⟨by decide,
   ((C30_railway_green_conditions STATE_YELLOW ⟨false, 0, true, true, true⟩).1 (by decide)).1,
   ((C30_railway_green_conditions STATE_YELLOW ⟨false, 0, true, true, true⟩).1 (by decide)).2.2.2⟩

end RailwaySignal

namespace Submarine

/-- C31 does not hold of the code: at a depth of 130, beyond `MAX_SAFE_DEPTH`
(120), with a hull pressure of 850 below both pressure thresholds and a dive
command `target_depth` of 200, the standard operational logic compares the
depth with the target only and returns `PUMP_ACTION_FILL`; the same call with
the target at `MAX_SAFE_DEPTH` returns `PUMP_ACTION_EMPTY`. -/
theorem C31_submarine_fill_beyond_safe_depth :
    (130 : Int) ≥ MAX_SAFE_DEPTH ∧
    step_control_logic ⟨850, 130, 130, 200⟩ = PUMP_ACTION_FILL ∧
    step_control_logic ⟨850, 130, 130, 120⟩ = PUMP_ACTION_EMPTY ∧
    ¬ (∀ (s : Sensors), s.current_depth ≥ MAX_SAFE_DEPTH →
        step_control_logic s ≠ PUMP_ACTION_FILL) := by
  refine ⟨by decide, by decide, by decide, fun h => ?_⟩
  exact h ⟨850, 130, 130, 200⟩ (by decide) (by decide)

end Submarine
